import Mathlib

/-! firewall3: lifecycle orchestration of main.c

A shallow embedding of `stop`, `start`, the two lookups and the command
dispatch of `main` (src/main.c).  The program talks to collaborators that
live outside main.c (the sink of utils.c, the renderers of zones.c, rules.c,
...).  Every call to such a collaborator is recorded as an `Event`, in
program order; a Snapshot pointer passed to a collaborator is recorded as
which of the two globals it is (`cfg_state` or `run_state`).  The answers the
collaborators give (does a sink open, is a table present, ...) are taken from
an `Outcomes` record, one for each call of `start` or `stop`, so that every
theorem holds for all answers.
-/

namespace Fw3

/-! ## Data model -/

/-- Modelled from the spec: enum fw3_family of options.h (not under src/),
the two address families, iterated IPv4 first and IPv6 second. -/
inductive fw3_family where
  | V4
  | V6
deriving DecidableEq, Repr

/-- Modelled from the spec: enum fw3_table of options.h (not under src/),
in the fixed order filter, nat, mangle, raw. -/
inductive fw3_table where
  | FILTER
  | NAT
  | MANGLE
  | RAW
deriving DecidableEq, Repr

/-- The loop `for (family = FW3_FAMILY_V4; family <= FW3_FAMILY_V6; family++)`. -/
def families : List fw3_family := [.V4, .V6]

/-- The loop `for (table = FW3_TABLE_FILTER; table <= FW3_TABLE_RAW; table++)`. -/
def tables : List fw3_table := [.FILTER, .NAT, .MANGLE, .RAW]

/-- Modelled from the spec: the family-active bitmap held in `defaults.flags`,
one bit for each address family. -/
structure fw3_flags where
  v4 : Bool
  v6 : Bool
deriving DecidableEq, Repr

/-- Modelled from the spec: macro `has(flags, family, family)` of options.h
(not under src/): the bit of the family is set. -/
def has_flag (flags : fw3_flags) (family : fw3_family) : Bool :=
  match family with
  | .V4 => flags.v4
  | .V6 => flags.v6

/-- Modelled from the spec: macro `set(flags, family, family)` of options.h
(not under src/): turn the bit of the family on. -/
def set_flag (flags : fw3_flags) (family : fw3_family) : fw3_flags :=
  match family with
  | .V4 => { flags with v4 := true }
  | .V6 => { flags with v6 := true }

/-- Modelled from the spec: macro `del(flags, family, family)` of options.h
(not under src/): turn the bit of the family off. -/
def del_flag (flags : fw3_flags) (family : fw3_family) : fw3_flags :=
  match family with
  | .V4 => { flags with v4 := false }
  | .V6 => { flags with v6 := false }

/-- A network or device entry of a zone (`struct fw3_device`), by name. -/
structure fw3_device where
  name : String
deriving DecidableEq, Repr

/-- The part of `struct fw3_zone` main.c reads. -/
structure fw3_zone where
  name : String
  networks : List fw3_device
  devices : List fw3_device
deriving DecidableEq, Repr

/-- The part of `struct fw3_defaults` main.c reads and writes. -/
structure fw3_defaults where
  flags : fw3_flags
  disable_ipv6 : Bool
deriving DecidableEq, Repr

/-- The part of `struct fw3_state` main.c reads and writes (a Snapshot). -/
structure fw3_state where
  defaults : fw3_defaults
  disable_ipsets : Bool
  statefile : Bool
  zones : List fw3_zone
deriving DecidableEq, Repr

/-- Which global Snapshot pointer a collaborator was handed. -/
inductive fw3_snapshot where
  | cfg
  | run
deriving DecidableEq, Repr

/-- The external programs a command pipe is opened to:
"iptables-restore", "ip6tables-restore" (both with --lenient --noflush)
and "ipset" (with -exist -). -/
inductive fw3_command where
  | iptables_restore
  | ip6tables_restore
  | ipset
deriving DecidableEq, Repr

/-- The three progress messages: " * Flushing", " * Clearing" (stop) and
" * Populating" (start), each followed by the family and the table. -/
inductive fw3_progress where
  | Flushing
  | Clearing
  | Populating
deriving DecidableEq, Repr

/-- One call to a collaborator outside main.c, with its arguments and, where
the code branches on it, its answer. -/
inductive Event where
  | warn_stopped
  | warn_started (family : fw3_family)
  | warn_exec (cmd : fw3_command)
  | warn_ipv6_disabled
  | freopen_stderr
  | usage
  | lock (ok : Bool)
  | unlock
  | hotplug_zones (state : fw3_snapshot) (add : Bool)
  | command_pipe (silent : Bool) (cmd : fw3_command) (ok : Bool)
  | stdout_pipe (ok : Bool)
  | command_close
  | info_table (msg : fw3_progress) (family : fw3_family) (table : fw3_table)
  | pr_table (table : fw3_table)
  | pr_commit
  | flush_all (table : fw3_table)
  | flush_rules (state : fw3_snapshot) (family : fw3_family) (table : fw3_table)
      (reload : Bool) (pass2 : Bool)
  | flush_zones (state : fw3_snapshot) (family : fw3_family) (table : fw3_table)
      (reload : Bool) (pass2 : Bool)
  | print_default_chains (state : fw3_snapshot) (family : fw3_family)
      (table : fw3_table) (reload : Bool)
  | print_zone_chains (state : fw3_snapshot) (family : fw3_family)
      (table : fw3_table) (reload : Bool)
  | print_default_head_rules (state : fw3_snapshot) (family : fw3_family)
      (table : fw3_table) (reload : Bool)
  | print_rules (state : fw3_snapshot) (family : fw3_family) (table : fw3_table)
  | print_redirects (state : fw3_snapshot) (family : fw3_family) (table : fw3_table)
  | print_forwards (state : fw3_snapshot) (family : fw3_family) (table : fw3_table)
  | print_zone_rules (state : fw3_snapshot) (family : fw3_family)
      (table : fw3_table) (reload : Bool)
  | print_default_tail_rules (state : fw3_snapshot) (family : fw3_family)
      (table : fw3_table) (reload : Bool)
  | print_includes (state : fw3_snapshot) (family : fw3_family) (reload : Bool)
  | create_ipsets (state : fw3_snapshot)
  | destroy_ipsets (state : fw3_snapshot)
  | fopen_conntrack (ok : Bool)
  | info_conntrack
  | fwrite_conntrack
  | fclose_conntrack
  | set_defaults (state : fw3_snapshot)
  | run_includes (state : fw3_snapshot) (reload : Bool)
  | write_statefile (state : fw3_snapshot)
  | printf_zone (name : String)
deriving DecidableEq, Repr

/-- The answers of the collaborators during one call of `start` or `stop`.
Within one such call every sink is opened at most once for each command and
each family, and every table is probed at most once for each family.
`stdout_pipe` is asked on behalf of a family (restore_pipe), so its answer may
depend on that family. -/
structure Outcomes where
  command_pipe : fw3_command → Bool
  stdout_pipe : fw3_family → Bool
  has_table : Bool → fw3_table → Bool
  conntrack : Bool

/-- The answers of the outside world during one run of `main`: whether
fw3_lock succeeds, and the outcomes during the first and the second lifecycle
call of the command (restart and reload make two calls). -/
structure Env where
  lock : Bool
  first : Outcomes
  second : Outcomes

/-- The globals of main.c together with the persisted artifact.  `cfg_state`
is never NULL when a command runs (build_state(false) ends the process
otherwise); `run_state` is NULL when no state file could be read.
`persisted` is the family-active bitmap last written to FW3_STATEFILE. -/
structure State where
  print_rules : Bool
  run_state : Option fw3_state
  cfg_state : fw3_state
  persisted : Option fw3_flags
deriving DecidableEq, Repr

/-- What a piece of code leaves behind: its status, the new globals and the
collaborator calls it made, in order. -/
structure Run where
  rv : Int
  st : State
  ev : List Event
deriving DecidableEq, Repr

/-! ## main.c -/

/-- The global a Snapshot name stands for. -/
def snapshot_flags (s : State) : fw3_snapshot → Option fw3_flags
  | .cfg => some s.cfg_state.defaults.flags
  | .run => s.run_state.map (fun r => r.defaults.flags)

/-- The restore command of a family (restore_pipe, line 146). -/
def restore_cmd (family : fw3_family) : fw3_command :=
  if family = .V4 then .iptables_restore else .ip6tables_restore

/-- Function restore_pipe (lines 141-158): the answer and the calls made. -/
def restore_pipe (o : Outcomes) (s : State) (family : fw3_family) (silent : Bool) :
    Bool × List Event :=
  let cmd := restore_cmd family
  if s.print_rules then
    (o.stdout_pipe family, [Event.stdout_pipe (o.stdout_pipe family)])
  else if !o.command_pipe cmd then
    (false, [Event.command_pipe silent cmd false, Event.warn_exec cmd])
  else
    (true, [Event.command_pipe silent cmd true])

/-- Function family_running (lines 160-164). -/
def family_running (s : State) (family : fw3_family) : Bool :=
  match s.run_state with
  | none => false
  | some r => has_flag r.defaults.flags family

/-- Function family_set (lines 166-176); a NULL state is left alone. -/
def family_set (state : Option fw3_state) (family : fw3_family) (set : Bool) :
    Option fw3_state :=
  match state with
  | none => none
  | some st =>
    if set then
      some { st with defaults := { st.defaults with flags := set_flag st.defaults.flags family } }
    else
      some { st with defaults := { st.defaults with flags := del_flag st.defaults.flags family } }

/-- Both family_set calls of a loop body (lines 236-237 and 321-322). -/
def family_set_both (s : State) (family : fw3_family) (set : Bool) : State :=
  { s with
    run_state := family_set s.run_state family set
    cfg_state := (family_set (some s.cfg_state) family set).getD s.cfg_state }

/-- Modelled from the spec: fw3_write_statefile of utils.c (not under src/)
fully overwrites the artifact with the bitmap of the Snapshot it is given. -/
def fw3_write_statefile (s : State) (which : fw3_snapshot) : State :=
  { s with persisted := snapshot_flags s which }

/-- The body of the table loop of stop for one present table (lines 212-232). -/
def stop_table (s : State) (complete reload : Bool) (family : fw3_family)
    (table : fw3_table) : List Event :=
  [Event.info_table (if complete then .Flushing else .Clearing) family table,
   Event.pr_table table] ++
  (if complete then
    [Event.flush_all table]
  else if s.run_state.isSome then
    [Event.flush_rules .run family table reload false,
     Event.flush_zones .run family table reload false,
     Event.flush_rules .run family table reload true,
     Event.flush_zones .run family table reload true]
  else
    []) ++
  [Event.pr_commit]

/-- The table loop of stop (lines 207-233). -/
def stop_tables (o : Outcomes) (s : State) (complete reload : Bool)
    (family : fw3_family) : List fw3_table → List Event
  | [] => []
  | table :: rest =>
    (if !o.has_table (family == .V6) table then []
     else stop_table s complete reload family table) ++
    stop_tables o s complete reload family rest

/-- The body of the family loop of stop (lines 201-239), entered with the
status so far. -/
def stop_family (o : Outcomes) (complete reload : Bool) (family : fw3_family)
    (rv : Int) (s : State) : Run :=
  if !complete && !family_running s family then
    ⟨rv, s, []⟩
  else
    let p := restore_pipe o s family true
    if !p.1 then
      ⟨rv, s, p.2⟩
    else
      ⟨0, family_set_both s family false,
       p.2 ++ stop_tables o s complete reload family tables ++ [Event.command_close]⟩

/-- The family loop of stop (lines 199-240). -/
def stop_loop (o : Outcomes) (complete reload : Bool) :
    List fw3_family → Int → State → Run
  | [], rv, s => ⟨rv, s, []⟩
  | family :: rest, rv, s =>
    let r1 := stop_family o complete reload family rv s
    let r2 := stop_loop o complete reload rest r1.rv r1.st
    ⟨r2.rv, r2.st, r1.ev ++ r2.ev⟩

/-- The ipset session of stop (lines 242-249). -/
def stop_ipsets (o : Outcomes) (reload : Bool) (s : State) : List Event :=
  if !reload && s.run_state.isSome then
    if o.command_pipe .ipset then
      [Event.command_pipe false .ipset true, Event.destroy_ipsets .run, Event.command_close]
    else
      [Event.command_pipe false .ipset false]
  else
    []

/-- The connection-tracking flush of stop (lines 251-257). -/
def stop_conntrack (o : Outcomes) (complete : Bool) : List Event :=
  if complete then
    if o.conntrack then
      [Event.fopen_conntrack true, Event.info_conntrack, Event.fwrite_conntrack,
       Event.fclose_conntrack]
    else
      [Event.fopen_conntrack false]
  else
    []

/-- The hotplug notification of stop (lines 196-197). -/
def stop_hotplug (s : State) : List Event :=
  if !s.print_rules && s.run_state.isSome then [Event.hotplug_zones .run false] else []

/-- Function stop (lines 178-263). -/
def stop (o : Outcomes) (complete reload : Bool) (s : State) : Run :=
  if !complete && s.run_state.isNone then
    ⟨1, s, if !reload then [Event.warn_stopped] else []⟩
  else
    let e0 := stop_hotplug s
    let r := stop_loop o complete reload families 1 s
    let e1 := stop_ipsets o reload r.st
    let e2 := stop_conntrack o complete
    if r.rv == 0 && r.st.run_state.isSome then
      ⟨r.rv, fw3_write_statefile r.st .run,
       e0 ++ r.ev ++ e1 ++ e2 ++ [Event.write_statefile .run]⟩
    else
      ⟨r.rv, r.st, e0 ++ r.ev ++ e1 ++ e2⟩

/-- The ipset session of start (lines 272-279). -/
def start_ipsets (o : Outcomes) (reload : Bool) (s : State) : List Event :=
  if !s.print_rules && !reload then
    if o.command_pipe .ipset then
      [Event.command_pipe false .ipset true, Event.create_ipsets .cfg, Event.command_close]
    else
      [Event.command_pipe false .ipset false]
  else
    []

/-- The body of the table loop of start for one present table (lines 303-315). -/
def start_table (reload : Bool) (family : fw3_family) (table : fw3_table) :
    List Event :=
  [Event.info_table .Populating family table,
   Event.pr_table table,
   Event.print_default_chains .cfg family table reload,
   Event.print_zone_chains .cfg family table reload,
   Event.print_default_head_rules .cfg family table reload,
   Event.print_rules .cfg family table,
   Event.print_redirects .cfg family table,
   Event.print_forwards .cfg family table,
   Event.print_zone_rules .cfg family table reload,
   Event.print_default_tail_rules .cfg family table reload,
   Event.pr_commit]

/-- The table loop of start (lines 298-316). -/
def start_tables (o : Outcomes) (reload : Bool) (family : fw3_family) :
    List fw3_table → List Event
  | [] => []
  | table :: rest =>
    (if !o.has_table (family == .V6) table then []
     else start_table reload family table) ++
    start_tables o reload family rest

/-- The body of the family loop of start (lines 283-324), entered with the
status so far. -/
def start_family (o : Outcomes) (reload : Bool) (family : fw3_family)
    (rv : Int) (s : State) : Run :=
  if family == .V6 && s.cfg_state.defaults.disable_ipv6 then
    ⟨rv, s, []⟩
  else if !s.print_rules && !reload && family_running s family then
    ⟨rv, s, [Event.warn_started family]⟩
  else
    let p := restore_pipe o s family false
    if !p.1 then
      ⟨rv, s, p.2⟩
    else
      ⟨0, family_set_both s family true,
       p.2 ++ start_tables o reload family tables ++
       [Event.print_includes .cfg family reload, Event.command_close]⟩

/-- The family loop of start (lines 281-325). -/
def start_loop (o : Outcomes) (reload : Bool) :
    List fw3_family → Int → State → Run
  | [], rv, s => ⟨rv, s, []⟩
  | family :: rest, rv, s =>
    let r1 := start_family o reload family rv s
    let r2 := start_loop o reload rest r1.rv r1.st
    ⟨r2.rv, r2.st, r1.ev ++ r2.ev⟩

/-- The closing part of start (lines 327-337), with the status of the loop. -/
def start_finish (reload : Bool) (rv : Int) (s : State) : Run :=
  if rv == 0 then
    if !s.print_rules then
      ⟨rv, fw3_write_statefile s .cfg,
       [Event.set_defaults .cfg, Event.run_includes .cfg reload,
        Event.hotplug_zones .cfg true, Event.write_statefile .cfg]⟩
    else
      ⟨rv, s, [Event.set_defaults .cfg]⟩
  else
    ⟨rv, s, []⟩

/-- Function start (lines 265-340). -/
def start (o : Outcomes) (reload : Bool) (s : State) : Run :=
  let e0 := start_ipsets o reload s
  let r := start_loop o reload families 1 s
  let f := start_finish reload r.rv r.st
  ⟨f.rv, f.st, e0 ++ r.ev ++ f.ev⟩

/-- The inner loop of the lookups: is there an entry of that name. -/
def has_device (name : String) : List fw3_device → Bool
  | [] => false
  | d :: rest => if d.name = name then true else has_device name rest

/-- The zone loop of lookup_network (lines 348-360). -/
def lookup_network_zones (net : String) : List fw3_zone → Int × List Event
  | [] => (1, [])
  | z :: rest =>
    if has_device net z.networks then (0, [Event.printf_zone z.name])
    else lookup_network_zones net rest

/-- Function lookup_network (lines 342-361). -/
def lookup_network (net : String) (s : State) : Run :=
  let r := lookup_network_zones net s.cfg_state.zones
  ⟨r.1, s, r.2⟩

/-- The zone loop of lookup_device (lines 369-381). -/
def lookup_device_zones (dev : String) : List fw3_zone → Int × List Event
  | [] => (1, [])
  | z :: rest =>
    if has_device dev z.devices then (0, [Event.printf_zone z.name])
    else lookup_device_zones dev rest

/-- Function lookup_device (lines 363-382). -/
def lookup_device (dev : String) (s : State) : Run :=
  let r := lookup_device_zones dev s.cfg_state.zones
  ⟨r.1, s, r.2⟩

/-- The command word `argv[optind]`, with the name that follows it for
network and device.  `other` stands for every line that ends in usage(): no
word, an unknown word, or network or device without a name. -/
inductive Command where
  | print
  | start
  | stop
  | flush
  | restart
  | reload
  | network (net : String)
  | device (dev : String)
  | other
deriving DecidableEq, Repr

/-- A command run under the lock (the pattern of lines 452-495): nothing
runs when fw3_lock fails, and the status stays 1. -/
def with_lock (env : Env) (s : State) (body : State → Run) : Run :=
  if env.lock then
    let r := body s
    ⟨r.rv, r.st, [Event.lock true] ++ r.ev ++ [Event.unlock]⟩
  else
    ⟨1, s, [Event.lock false]⟩

/-- The body of the restart branch (lines 480-481). -/
def restart_body (env : Env) (s : State) : Run :=
  let r1 := stop env.first true false s
  let r2 := start env.second false r1.st
  ⟨r2.rv, r2.st, r1.ev ++ r2.ev⟩

/-- The body of the reload branch (lines 490-491). -/
def reload_body (env : Env) (s : State) : Run :=
  let r1 := stop env.first false true s
  let r2 := start env.second (r1.rv == 0) r1.st
  ⟨r2.rv, r2.st, r1.ev ++ r2.ev⟩

/-- The print branch (lines 440-450); `use_family` is NONE for FW3_FAMILY_ANY. -/
def print_body (env : Env) (use_family : Option fw3_family) (s : State) : Run :=
  let e0 := if use_family = none then []
    else if use_family = some .V6 && s.cfg_state.defaults.disable_ipv6 then
      [Event.warn_ipv6_disabled]
    else []
  let s1 : State := { s with
    cfg_state := { s.cfg_state with disable_ipsets := true }
    print_rules := true }
  let r := start env.first false s1
  ⟨r.rv, r.st, e0 ++ [Event.freopen_stderr] ++ r.ev⟩

/-- Function main from the dispatch on (lines 438-516), after the options
are read and both Snapshots are built. -/
def main (env : Env) (use_family : Option fw3_family) (cmd : Command)
    (s : State) : Run :=
  match cmd with
  | .print => print_body env use_family s
  | .start => with_lock env s (start env.first false)
  | .stop => with_lock env s (stop env.first false false)
  | .flush => with_lock env s (stop env.first true false)
  | .restart => with_lock env s (restart_body env)
  | .reload => with_lock env s (reload_body env)
  | .network net => lookup_network net s
  | .device dev => lookup_device dev s
  | .other => ⟨1, s, [Event.usage]⟩

/-! ## Vocabulary of the properties -/

/-- The event names this family: it carries the family as an argument, or
it opens (or fails to execute) the restore command of the family. -/
def Event.mentions (family : fw3_family) : Event → Bool
  | .warn_started f => f == family
  | .warn_exec cmd => cmd == restore_cmd family
  | .command_pipe _ cmd _ => cmd == restore_cmd family
  | .info_table _ f _ => f == family
  | .flush_rules _ f _ _ _ => f == family
  | .flush_zones _ f _ _ _ => f == family
  | .print_default_chains _ f _ _ => f == family
  | .print_zone_chains _ f _ _ => f == family
  | .print_default_head_rules _ f _ _ => f == family
  | .print_rules _ f _ => f == family
  | .print_redirects _ f _ => f == family
  | .print_forwards _ f _ => f == family
  | .print_zone_rules _ f _ _ => f == family
  | .print_default_tail_rules _ f _ _ => f == family
  | .print_includes _ f _ => f == family
  | _ => false

/-- The calls of stop that follow the family loop (lines 242-260), given
what the loop left: the ipset session, the connection-tracking flush and the
write of the state file. -/
def stop_after (o : Outcomes) (complete reload : Bool) (r : Run) : List Event :=
  stop_ipsets o reload r.st ++ stop_conntrack o complete ++
  if r.rv == 0 && r.st.run_state.isSome then [Event.write_statefile .run] else []

/-- The state in which the loop of start enters the iteration of a family. -/
def start_entry (o : Outcomes) (reload : Bool) (s : State) : fw3_family → State
  | .V4 => s
  | .V6 => (start_family o reload .V4 1 s).st

/-- The state in which the loop of stop enters the iteration of a family. -/
def stop_entry (o : Outcomes) (complete reload : Bool) (s : State) :
    fw3_family → State
  | .V4 => s
  | .V6 => (stop_family o complete reload .V4 1 s).st

/-- In the words of the spec: start populates a family when it is not skipped
by the IPv6-disabled check, not refused by the already-running guard, and
its sink opens. -/
def start_populates (o : Outcomes) (reload : Bool) (s : State)
    (family : fw3_family) : Bool :=
  !(family == .V6 && s.cfg_state.defaults.disable_ipv6) &&
  !(!s.print_rules && !reload && family_running s family) &&
  (restore_pipe o s family false).1

/-- In the words of the spec: stop tears a family down when the stop is
complete or the family is marked active, and its sink opens. -/
def stop_tears_down (o : Outcomes) (complete : Bool) (s : State)
    (family : fw3_family) : Bool :=
  (complete || family_running s family) && (restore_pipe o s family true).1

/-- The tables that are present for a family, in loop order. -/
def present_tables (o : Outcomes) (family : fw3_family) : List fw3_table :=
  tables.filter (fun table => o.has_table (family == .V6) table)

/-- In the words of the spec: the fixed sequence of one table of start, from
the table header to the commit. -/
def spec_populate_table (reload : Bool) (family : fw3_family) (table : fw3_table) :
    List Event :=
  [Event.pr_table table,
   Event.print_default_chains .cfg family table reload,
   Event.print_zone_chains .cfg family table reload,
   Event.print_default_head_rules .cfg family table reload,
   Event.print_rules .cfg family table,
   Event.print_redirects .cfg family table,
   Event.print_forwards .cfg family table,
   Event.print_zone_rules .cfg family table reload,
   Event.print_default_tail_rules .cfg family table reload,
   Event.pr_commit]

/-- In the words of the spec: the sequence of one table of a stop, from the
table header to the commit: flush-all for a complete stop, else the two
passes, rules before zones in each. -/
def spec_teardown_table (complete reload : Bool) (family : fw3_family)
    (table : fw3_table) : List Event :=
  if complete then
    [Event.pr_table table, Event.flush_all table, Event.pr_commit]
  else
    [Event.pr_table table,
     Event.flush_rules .run family table reload false,
     Event.flush_zones .run family table reload false,
     Event.flush_rules .run family table reload true,
     Event.flush_zones .run family table reload true,
     Event.pr_commit]

/-- In the words of the spec: what start sends for one family it populates:
the sink open (stdout when printing), then for every present table in order
the progress message and the fixed sequence, then the include directives of
the family, then the close of the sink. -/
def spec_populate_family (o : Outcomes) (print_rules reload : Bool)
    (family : fw3_family) : List Event :=
  (if print_rules then [Event.stdout_pipe true]
    else [Event.command_pipe false (restore_cmd family) true]) ++
  (present_tables o family).flatMap
    (fun table => Event.info_table .Populating family table ::
      spec_populate_table reload family table) ++
  [Event.print_includes .cfg family reload, Event.command_close]

/-- In the words of the spec: what stop sends for one family it tears down:
the silent sink open, then for every present table in order the progress
message and the teardown sequence, then the close of the sink. -/
def spec_teardown_family (o : Outcomes) (print_rules complete reload : Bool)
    (family : fw3_family) : List Event :=
  (if print_rules then [Event.stdout_pipe true]
    else [Event.command_pipe true (restore_cmd family) true]) ++
  (present_tables o family).flatMap
    (fun table =>
      Event.info_table (if complete then .Flushing else .Clearing) family table ::
      spec_teardown_table complete reload family table) ++
  [Event.command_close]

/-- A per-object flush call: fw3_flush_rules or fw3_flush_zones. -/
def Event.is_object_flush : Event → Bool
  | .flush_rules _ _ _ _ _ => true
  | .flush_zones _ _ _ _ _ => true
  | _ => false

/-- The calls the loop of start makes in the iteration of one family. -/
def start_segment (o : Outcomes) (reload : Bool) (s : State)
    (family : fw3_family) : List Event :=
  (start_family o reload family 1 (start_entry o reload s family)).ev

/-- The calls the loop of stop makes in the iteration of one family. -/
def stop_segment (o : Outcomes) (complete reload : Bool) (s : State)
    (family : fw3_family) : List Event :=
  (stop_family o complete reload family 1 (stop_entry o complete reload s family)).ev

/-- Two outcome records that differ at most in whether the sink of the
family `other` opens: the restore command of that family, or stdout opened
on its behalf. -/
def agree_except (other : fw3_family) (o1 o2 : Outcomes) : Prop :=
  o1.has_table = o2.has_table ∧ o1.conntrack = o2.conntrack ∧
  (∀ cmd, cmd ≠ restore_cmd other → o1.command_pipe cmd = o2.command_pipe cmd) ∧
  (∀ f, f ≠ other → o1.stdout_pipe f = o2.stdout_pipe f)

/-- Every sink opens except that of IPv6: ip6tables-restore cannot be
executed. -/
def v6_fails : Outcomes :=
  { command_pipe := fun cmd => cmd != .ip6tables_restore
    stdout_pipe := fun f => f != .V6
    has_table := fun _ _ => true
    conntrack := true }

/-- The lock is taken and no command can be executed in either lifecycle
call: iptables-restore, ip6tables-restore and ipset all fail to start. -/
def stuck_env : Env :=
  { lock := true
    first :=
      { command_pipe := fun _ => false
        stdout_pipe := fun _ => true
        has_table := fun _ _ => true
        conntrack := true }
    second :=
      { command_pipe := fun _ => false
        stdout_pipe := fun _ => true
        has_table := fun _ _ => true
        conntrack := true } }

/-- The lock is taken, every sink opens and every table is present in both
lifecycle calls. -/
def good_env : Env :=
  { lock := true
    first :=
      { command_pipe := fun _ => true
        stdout_pipe := fun _ => true
        has_table := fun _ _ => true
        conntrack := true }
    second :=
      { command_pipe := fun _ => true
        stdout_pipe := fun _ => true
        has_table := fun _ _ => true
        conntrack := true } }

/-- Every sink of this lifecycle call opens: the restore commands, ipset,
and stdout. -/
def sinks_open (o : Outcomes) : Prop :=
  (∀ cmd, o.command_pipe cmd = true) ∧ (∀ f, o.stdout_pipe f = true)

/-- Between the state `s` and the later state `t` the IPv6 policy and the
presence of the active Snapshot are unchanged, and the IPv6 bit was not
turned on in either Snapshot. -/
def v6_not_set (s t : State) : Prop :=
  t.cfg_state.defaults.disable_ipv6 = s.cfg_state.defaults.disable_ipv6 ∧
  t.run_state.isSome = s.run_state.isSome ∧
  (has_flag s.cfg_state.defaults.flags .V6 = false →
    has_flag t.cfg_state.defaults.flags .V6 = false) ∧
  (family_running s .V6 = false → family_running t .V6 = false)

/-- Every sink opens and every table is present. -/
def all_ok : Outcomes :=
  { command_pipe := fun _ => true
    stdout_pipe := fun _ => true
    has_table := fun _ _ => true
    conntrack := true }

/-- A Snapshot with the given bitmap and IPv6 policy, and no zones. -/
def snapshot (v4 v6 disable_ipv6 : Bool) : fw3_state :=
  { defaults := { flags := { v4 := v4, v6 := v6 }, disable_ipv6 := disable_ipv6 }
    disable_ipsets := false
    statefile := false
    zones := [] }

/-- A stopped firewall whose state file exists: the active Snapshot was
read, with no family marked active (what a successful stop leaves). -/
def stopped_state : State :=
  { print_rules := false
    run_state := some { snapshot false false false with statefile := true }
    cfg_state := snapshot false false false
    persisted := some { v4 := false, v6 := false } }

/-- A running firewall: the active Snapshot was read with IPv4 marked
active, and the configuration was loaded afresh. -/
def running_state : State :=
  { print_rules := false
    run_state := some { snapshot true false false with statefile := true }
    cfg_state := snapshot false false false
    persisted := some { v4 := true, v6 := false } }

/-- IPv6 was running when the state file was written and has since been
disabled in the configuration. -/
def v6_stale_state : State :=
  { print_rules := false
    run_state := some { snapshot true true false with statefile := true }
    cfg_state := snapshot false false true
    persisted := some { v4 := true, v6 := true } }

/-- A first-ever run: no state file, hence no active Snapshot. -/
def fresh_state : State :=
  { print_rules := false
    run_state := none
    cfg_state := snapshot false false false
    persisted := none }

/-- Every call the iteration of one family in start can make, for the given
print and reload modes. -/
def start_family_alphabet (print_rules reload : Bool) (f : fw3_family) : List Event :=
  (if !print_rules && !reload then [Event.warn_started f] else []) ++
  (if print_rules then [Event.stdout_pipe true, Event.stdout_pipe false]
   else [Event.command_pipe false (restore_cmd f) true,
         Event.command_pipe false (restore_cmd f) false,
         Event.warn_exec (restore_cmd f)]) ++
  tables.flatMap (start_table reload f) ++
  [Event.print_includes .cfg f reload, Event.command_close]

/-- Every call start can make before its closing part: the ipset session
and the two family iterations. -/
def start_body_alphabet (print_rules reload : Bool) : List Event :=
  (if !print_rules && !reload then
    [Event.command_pipe false .ipset true, Event.command_pipe false .ipset false,
     Event.create_ipsets .cfg, Event.command_close]
   else []) ++
  families.flatMap (start_family_alphabet print_rules reload)

/-- The calls start makes before its closing part (lines 272-325). -/
def start_body (o : Outcomes) (reload : Bool) (s : State) : List Event :=
  start_ipsets o reload s ++ (start_loop o reload families 1 s).ev

/-- Every call the iteration of one family in stop can make. -/
def stop_family_alphabet (print_rules complete reload : Bool) (f : fw3_family) :
    List Event :=
  (if print_rules then [Event.stdout_pipe true, Event.stdout_pipe false]
   else [Event.command_pipe true (restore_cmd f) true,
         Event.command_pipe true (restore_cmd f) false,
         Event.warn_exec (restore_cmd f)]) ++
  tables.flatMap (fun table =>
    [Event.info_table (if complete then .Flushing else .Clearing) f table,
     Event.pr_table table] ++
    (if complete then [Event.flush_all table]
     else [Event.flush_rules .run f table reload false,
           Event.flush_zones .run f table reload false,
           Event.flush_rules .run f table reload true,
           Event.flush_zones .run f table reload true]) ++
    [Event.pr_commit]) ++
  [Event.command_close]

/-- Every call stop can make before it writes the state file. -/
def stop_body_alphabet (print_rules complete reload : Bool) : List Event :=
  [Event.warn_stopped, Event.hotplug_zones .run false] ++
  families.flatMap (stop_family_alphabet print_rules complete reload) ++
  (if !reload then
    [Event.command_pipe false .ipset true, Event.command_pipe false .ipset false,
     Event.destroy_ipsets .run, Event.command_close]
   else []) ++
  (if complete then
    [Event.fopen_conntrack true, Event.fopen_conntrack false, Event.info_conntrack,
     Event.fwrite_conntrack, Event.fclose_conntrack]
   else [])

/-- The calls stop makes before it writes the state file (lines 187-257). -/
def stop_body (o : Outcomes) (complete reload : Bool) (s : State) : List Event :=
  if !complete && s.run_state.isNone then
    (if !reload then [Event.warn_stopped] else [])
  else
    stop_hotplug s ++ (stop_loop o complete reload families 1 s).ev ++
    stop_ipsets o reload (stop_loop o complete reload families 1 s).st ++
    stop_conntrack o complete

/-- The warning of the already-running guard of start. -/
def Event.is_started_warning : Event → Bool
  | .warn_started _ => true
  | _ => false

/-- A write of the state file. -/
def Event.is_statefile_write : Event → Bool
  | .write_statefile _ => true
  | _ => false

/-- The same state with other family-active bitmaps: the bitmap of the
desired Snapshot is replaced, and that of the active Snapshot when there is
one.  Two states differ only in their bitmaps when one is the other with its
bitmaps replaced. -/
def with_bitmaps (s : State) (cfg_flags run_flags : fw3_flags) : State :=
  { s with
    cfg_state := { s.cfg_state with
      defaults := { s.cfg_state.defaults with flags := cfg_flags } }
    run_state := s.run_state.map (fun r =>
      { r with defaults := { r.defaults with flags := run_flags } }) }

/-- A call that acts on the live system: a spawn of an external command
(restore or ipset), the creation or destruction of ipsets, the execution of
include scripts, a hotplug notification, a write of the state file, or the
lock. -/
def Event.is_live_effect : Event → Bool
  | .command_pipe _ _ _ => true
  | .create_ipsets _ => true
  | .destroy_ipsets _ => true
  | .run_includes _ _ => true
  | .hotplug_zones _ _ => true
  | .write_statefile _ => true
  | .lock _ => true
  | .unlock => true
  | _ => false

/-- A call to fw3_lock or fw3_unlock. -/
def Event.is_lock : Event → Bool
  | .lock _ => true
  | .unlock => true
  | _ => false

/-- The state the print branch hands to start (lines 447-448): ipsets
disabled in the desired Snapshot, print mode on. -/
def print_state (s : State) : State :=
  { s with
    cfg_state := { s.cfg_state with disable_ipsets := true }
    print_rules := true }

/-- Every call start can make. -/
def start_alphabet (print_rules reload : Bool) : List Event :=
  start_body_alphabet print_rules reload ++
  [Event.set_defaults .cfg] ++
  (if print_rules then []
   else [Event.run_includes .cfg reload, Event.hotplug_zones .cfg true,
         Event.write_statefile .cfg])

/-- Every call stop can make. -/
def stop_alphabet (print_rules complete reload : Bool) : List Event :=
  stop_body_alphabet print_rules complete reload ++ [Event.write_statefile .run]

/-- The lifecycle call or calls a mutating command makes under the lock
(lines 452-495); none for the commands that take no lock. -/
def lifecycle_body (env : Env) : Command → Option (State → Run)
  | .start => some (start env.first false)
  | .stop => some (stop env.first false false)
  | .flush => some (stop env.first true false)
  | .restart => some (restart_body env)
  | .reload => some (reload_body env)
  | _ => none

/-- In the words of the spec: the first zone, in declaration order, that has
a network of the given name. -/
def spec_network_zone (net : String) (s : State) : Option fw3_zone :=
  s.cfg_state.zones.find? (fun z => z.networks.any (fun d => d.name == net))

/-- In the words of the spec: the first zone, in declaration order, that has
a device of the given name. -/
def spec_device_zone (dev : String) (s : State) : Option fw3_zone :=
  s.cfg_state.zones.find? (fun z => z.devices.any (fun d => d.name == dev))

/-- What a lookup answers for the zone it found, if any: status 0 and one
line with the name of the zone, else status 1 and no line. -/
def spec_lookup_answer (s : State) : Option fw3_zone → Run
  | some z => ⟨0, s, [Event.printf_zone z.name]⟩
  | none => ⟨1, s, []⟩

/-- A configuration with two zones, each holding the network "lan". -/
def two_zone_state : State :=
  { print_rules := false
    run_state := none
    cfg_state :=
      { snapshot false false false with
        zones :=
          [{ name := "lan", networks := [⟨"lan"⟩], devices := [⟨"eth0"⟩] },
           { name := "guest", networks := [⟨"lan"⟩, ⟨"wlan"⟩], devices := [⟨"eth1"⟩] }] }
    persisted := none }

/-- A call of the closing part of start: the default policy side effects,
the include scripts, the hotplug notification or the write of the state
file. -/
def Event.is_closing_effect : Event → Bool
  | .set_defaults _ => true
  | .run_includes _ _ => true
  | .hotplug_zones _ _ => true
  | .write_statefile _ => true
  | _ => false

/-- A call that works on a sink: an open (or failed open), a line written
or a close. -/
def Event.is_sink_call : Event → Bool
  | .command_pipe _ _ _ => true
  | .stdout_pipe _ => true
  | .command_close => true
  | .pr_table _ => true
  | .pr_commit => true
  | .flush_all _ => true
  | .flush_rules _ _ _ _ _ => true
  | .flush_zones _ _ _ _ _ => true
  | .print_default_chains _ _ _ _ => true
  | .print_zone_chains _ _ _ _ => true
  | .print_default_head_rules _ _ _ _ => true
  | .print_rules _ _ _ => true
  | .print_redirects _ _ _ => true
  | .print_forwards _ _ _ => true
  | .print_zone_rules _ _ _ _ => true
  | .print_default_tail_rules _ _ _ _ => true
  | .print_includes _ _ _ => true
  | .create_ipsets _ => true
  | .destroy_ipsets _ => true
  | _ => false

/-- A rule-program line or ipset line written to the sink that is open. -/
def Event.is_sink_write : Event → Bool
  | .pr_table _ => true
  | .pr_commit => true
  | .flush_all _ => true
  | .flush_rules _ _ _ _ _ => true
  | .flush_zones _ _ _ _ _ => true
  | .print_default_chains _ _ _ _ => true
  | .print_zone_chains _ _ _ _ => true
  | .print_default_head_rules _ _ _ _ => true
  | .print_rules _ _ _ => true
  | .print_redirects _ _ _ => true
  | .print_forwards _ _ _ => true
  | .print_zone_rules _ _ _ _ => true
  | .print_default_tail_rules _ _ _ _ => true
  | .print_includes _ _ _ => true
  | .create_ipsets _ => true
  | .destroy_ipsets _ => true
  | _ => false

/-- One step of the session discipline of the sink, from "a session is
open" or "no session is open": an open, successful or failed, is allowed
only when no session is open, and a session is open afterwards exactly when
it succeeded; a write or a close is allowed only when a session is open;
every other call leaves the sink alone.  NONE is a violation. -/
def session_step (is_open : Bool) : Event → Option Bool
  | .command_pipe _ _ ok => if is_open then none else some ok
  | .stdout_pipe ok => if is_open then none else some ok
  | .command_close => if is_open then some false else none
  | e => if e.is_sink_write then (if is_open then some true else none) else some is_open

/-- The session discipline run over a trace: whether a session is open at
the end, or NONE when a step was a violation. -/
def run_sessions : Bool → List Event → Option Bool
  | is_open, [] => some is_open
  | is_open, e :: rest =>
    match session_step is_open e with
    | none => none
    | some next => run_sessions next rest

/-! ## Basic facts -/

theorem restore_pipe_fst (o : Outcomes) (s : State) (family : fw3_family)
    (silent : Bool) :
    (restore_pipe o s family silent).1 =
      if s.print_rules then o.stdout_pipe family else o.command_pipe (restore_cmd family) := by
  unfold restore_pipe
  by_cases hp : s.print_rules = true
  · simp [hp]
  · by_cases hc : o.command_pipe (restore_cmd family) = true <;> simp [hp, hc]

theorem restore_pipe_snd_ok (o : Outcomes) (s : State) (family : fw3_family)
    (silent : Bool) (h : (restore_pipe o s family silent).1 = true) :
    (restore_pipe o s family silent).2 =
      if s.print_rules then [Event.stdout_pipe true]
      else [Event.command_pipe silent (restore_cmd family) true] := by
  unfold restore_pipe at h ⊢
  by_cases hp : s.print_rules = true
  · simp [hp] at h ⊢
    exact h
  · by_cases hc : o.command_pipe (restore_cmd family) = true <;> simp [hp, hc] at h ⊢

theorem restore_cmd_ne {f g : fw3_family} (h : g ≠ f) : restore_cmd g ≠ restore_cmd f := by
  cases f <;> cases g <;> simp [restore_cmd] at h ⊢

theorem restore_pipe_mentions (o : Outcomes) (s : State) (f g : fw3_family)
    (silent : Bool) (h : g ≠ f) :
    ∀ e ∈ (restore_pipe o s g silent).2, e.mentions f = false := by
  intro e he
  have hne := restore_cmd_ne h
  unfold restore_pipe at he
  by_cases hp : s.print_rules = true
  · simp [hp] at he
    subst he
    rfl
  · by_cases hc : o.command_pipe (restore_cmd g) = true
    · simp [hp, hc] at he
      subst he
      simp [Event.mentions, hne]
    · simp [hp, hc] at he
      rcases he with he | he <;> subst he <;> simp [Event.mentions, hne]

theorem start_tables_eq (o : Outcomes) (reload : Bool) (family : fw3_family)
    (ts : List fw3_table) :
    start_tables o reload family ts =
      (ts.filter (fun table => o.has_table (family == .V6) table)).flatMap
        (fun table => Event.info_table .Populating family table ::
          spec_populate_table reload family table) := by
  induction ts with
  | nil => rfl
  | cons t rest ih =>
    by_cases h : o.has_table (family == .V6) t = true
    · simp [start_tables, List.filter_cons, h, ih, start_table, spec_populate_table]
    · simp [start_tables, List.filter_cons, h, ih]

theorem stop_tables_eq (o : Outcomes) (s : State) (complete reload : Bool)
    (family : fw3_family) (ts : List fw3_table)
    (h : complete = true ∨ s.run_state.isSome = true) :
    stop_tables o s complete reload family ts =
      (ts.filter (fun table => o.has_table (family == .V6) table)).flatMap
        (fun table =>
          Event.info_table (if complete then .Flushing else .Clearing) family table ::
          spec_teardown_table complete reload family table) := by
  induction ts with
  | nil => rfl
  | cons t rest ih =>
    by_cases ht : o.has_table (family == .V6) t = true
    · cases complete
      · have hs : s.run_state.isSome = true := by simpa using h
        simp [stop_tables, List.filter_cons, ht, ih, stop_table, spec_teardown_table, hs]
      · simp [stop_tables, List.filter_cons, ht, ih, stop_table, spec_teardown_table]
    · simp [stop_tables, List.filter_cons, ht, ih]

theorem start_tables_mentions (o : Outcomes) (reload : Bool) (f g : fw3_family)
    (h : g ≠ f) (ts : List fw3_table) :
    ∀ e ∈ start_tables o reload g ts, e.mentions f = false := by
  induction ts with
  | nil => intro e he; simp [start_tables] at he
  | cons t rest ih =>
    intro e he
    simp only [start_tables, List.mem_append] at he
    rcases he with he | he
    · by_cases ht : o.has_table (g == .V6) t = true
      · simp [ht, start_table] at he
        rcases he with he | he | he | he | he | he | he | he | he | he | he <;>
          subst he <;> simp [Event.mentions, h]
      · simp [ht] at he
    · exact ih e he

theorem stop_tables_mentions (o : Outcomes) (s : State) (complete reload : Bool)
    (f g : fw3_family) (h : g ≠ f) (ts : List fw3_table) :
    ∀ e ∈ stop_tables o s complete reload g ts, e.mentions f = false := by
  induction ts with
  | nil => intro e he; simp [stop_tables] at he
  | cons t rest ih =>
    intro e he
    simp only [stop_tables, List.mem_append] at he
    rcases he with he | he
    · by_cases ht : o.has_table (g == .V6) t = true
      · cases complete
        · cases hs : s.run_state.isSome
          · simp [ht, stop_table, hs] at he
            rcases he with he | he | he <;> subst he <;> simp [Event.mentions, h]
          · simp [ht, stop_table, hs] at he
            rcases he with he | he | he | he | he | he | he <;>
              subst he <;> simp [Event.mentions, h]
        · simp [ht, stop_table] at he
          rcases he with he | he | he | he <;> subst he <;> simp [Event.mentions, h]
      · simp [ht] at he
    · exact ih e he

/-! ## The two family_set calls -/

theorem family_set_both_print_rules (s : State) (f : fw3_family) (b : Bool) :
    (family_set_both s f b).print_rules = s.print_rules := rfl

theorem family_set_both_persisted (s : State) (f : fw3_family) (b : Bool) :
    (family_set_both s f b).persisted = s.persisted := rfl

theorem family_set_both_disable_ipv6 (s : State) (f : fw3_family) (b : Bool) :
    (family_set_both s f b).cfg_state.defaults.disable_ipv6 =
      s.cfg_state.defaults.disable_ipv6 := by
  cases b <;> simp [family_set_both, family_set]

theorem family_set_both_isSome (s : State) (f : fw3_family) (b : Bool) :
    (family_set_both s f b).run_state.isSome = s.run_state.isSome := by
  cases hr : s.run_state <;> cases b <;> simp [family_set_both, family_set, hr]

theorem family_set_both_cfg_flag (s : State) (f g : fw3_family) (b : Bool) :
    has_flag (family_set_both s f b).cfg_state.defaults.flags g =
      if g = f then b else has_flag s.cfg_state.defaults.flags g := by
  cases b <;> cases f <;> cases g <;>
    simp [family_set_both, family_set, has_flag, set_flag, del_flag]

theorem family_set_both_running (s : State) (f g : fw3_family) (b : Bool) :
    family_running (family_set_both s f b) g =
      (s.run_state.isSome && if g = f then b else family_running s g) := by
  cases hr : s.run_state <;> cases b <;> cases f <;> cases g <;>
    simp [family_set_both, family_set, family_running, has_flag, set_flag, del_flag, hr]

theorem family_running_isSome (s : State) (g : fw3_family)
    (h : family_running s g = true) : s.run_state.isSome = true := by
  cases hr : s.run_state
  · simp [family_running, hr] at h
  · rfl

theorem family_set_both_running_ne (s : State) (f g : fw3_family) (b : Bool)
    (h : g ≠ f) : family_running (family_set_both s f b) g = family_running s g := by
  rw [family_set_both_running]
  cases hg : family_running s g
  · simp [h]
  · simp [h, family_running_isSome s g hg]

theorem restore_pipe_print_rules (o : Outcomes) (s t : State) (f : fw3_family)
    (silent : Bool) (h : t.print_rules = s.print_rules) :
    restore_pipe o t f silent = restore_pipe o s f silent := by
  simp [restore_pipe, h]

/-! ## The loop bodies -/

theorem start_family_of_populates (o : Outcomes) (reload : Bool) (s : State)
    (f : fw3_family) (rv : Int) (h : start_populates o reload s f = true) :
    start_family o reload f rv s =
      ⟨0, family_set_both s f true,
       (restore_pipe o s f false).2 ++ start_tables o reload f tables ++
       [Event.print_includes .cfg f reload, Event.command_close]⟩ := by
  simp only [start_populates, Bool.and_eq_true, Bool.not_eq_true'] at h
  obtain ⟨⟨h1, h2⟩, h3⟩ := h
  simp [start_family, h1, h2, h3]

theorem start_family_of_not (o : Outcomes) (reload : Bool) (s : State)
    (f : fw3_family) (rv : Int) (h : start_populates o reload s f = false) :
    (start_family o reload f rv s).rv = rv ∧ (start_family o reload f rv s).st = s := by
  unfold start_family
  by_cases h1 : (f == .V6 && s.cfg_state.defaults.disable_ipv6) = true
  · simp [h1]
  · by_cases h2 : (!s.print_rules && !reload && family_running s f) = true
    · simp [h1, h2]
    · have h3 : (restore_pipe o s f false).1 = false := by
        simp only [Bool.not_eq_true] at h1 h2
        simpa [start_populates, h1, h2] using h
      simp [h1, h2, h3]

theorem start_family_rv (o : Outcomes) (reload : Bool) (s : State)
    (f : fw3_family) (rv : Int) :
    (start_family o reload f rv s).rv =
      if start_populates o reload s f then 0 else rv := by
  cases h : start_populates o reload s f
  · simp [(start_family_of_not o reload s f rv h).1]
  · simp [start_family_of_populates o reload s f rv h]

theorem start_family_st (o : Outcomes) (reload : Bool) (s : State)
    (f : fw3_family) (rv : Int) :
    (start_family o reload f rv s).st =
      if start_populates o reload s f then family_set_both s f true else s := by
  cases h : start_populates o reload s f
  · simp [(start_family_of_not o reload s f rv h).2]
  · simp [start_family_of_populates o reload s f rv h]

theorem start_family_ev_rv (o : Outcomes) (reload : Bool) (s : State)
    (f : fw3_family) (rv rv2 : Int) :
    (start_family o reload f rv s).ev = (start_family o reload f rv2 s).ev := by
  unfold start_family
  by_cases h1 : (f == .V6 && s.cfg_state.defaults.disable_ipv6) = true
  · simp [h1]
  · by_cases h2 : (!s.print_rules && !reload && family_running s f) = true
    · simp [h1, h2]
    · cases h3 : (restore_pipe o s f false).1 <;> simp [h1, h2, h3]

theorem start_family_mentions (o : Outcomes) (reload : Bool) (s : State)
    (f g : fw3_family) (rv : Int) (h : g ≠ f) :
    ∀ e ∈ (start_family o reload g rv s).ev, e.mentions f = false := by
  intro e he
  unfold start_family at he
  by_cases h1 : (g == .V6 && s.cfg_state.defaults.disable_ipv6) = true
  · simp [h1] at he
  · by_cases h2 : (!s.print_rules && !reload && family_running s g) = true
    · simp [h1, h2] at he
      subst he
      simp [Event.mentions, h]
    · cases h3 : (restore_pipe o s g false).1
      · simp [h1, h2, h3] at he
        exact restore_pipe_mentions o s f g false h e he
      · simp [h1, h2, h3] at he
        rcases he with he | he | he | he
        · exact restore_pipe_mentions o s f g false h e he
        · exact start_tables_mentions o reload f g h tables e he
        · subst he
          simp [Event.mentions, h]
        · subst he
          rfl

theorem start_ipsets_mentions (o : Outcomes) (reload : Bool) (s : State)
    (f : fw3_family) : ∀ e ∈ start_ipsets o reload s, e.mentions f = false := by
  intro e he
  unfold start_ipsets at he
  by_cases h1 : (!s.print_rules && !reload) = true
  · by_cases h2 : o.command_pipe .ipset = true
    · simp [h1, h2] at he
      rcases he with he | he | he <;> subst he <;> cases f <;> rfl
    · simp [h1, h2] at he
      subst he
      cases f <;> rfl
  · simp [h1] at he

theorem start_finish_mentions (reload : Bool) (rv : Int) (s : State)
    (f : fw3_family) : ∀ e ∈ (start_finish reload rv s).ev, e.mentions f = false := by
  intro e he
  unfold start_finish at he
  by_cases h1 : (rv == 0) = true
  · by_cases h2 : s.print_rules = true
    · simp [h1, h2] at he
      subst he
      rfl
    · simp [h1, h2] at he
      rcases he with he | he | he | he <;> subst he <;> rfl
  · simp [h1] at he

theorem start_populates_entry (o : Outcomes) (reload : Bool) (s : State)
    (f : fw3_family) :
    start_populates o reload (start_entry o reload s f) f = start_populates o reload s f := by
  cases f
  · rfl
  · simp only [start_entry, start_family_st]
    cases h : start_populates o reload s .V4
    · simp
    · simp only [if_true, start_populates, family_set_both_print_rules,
        family_set_both_disable_ipv6]
      rw [family_set_both_running_ne s .V4 .V6 true (by decide),
        restore_pipe_print_rules o s _ .V6 false (family_set_both_print_rules s .V4 true)]

theorem start_ev (o : Outcomes) (reload : Bool) (s : State) :
    (start o reload s).ev =
      start_ipsets o reload s ++ (start_family o reload .V4 1 s).ev ++
      (start_family o reload .V6 1 (start_entry o reload s .V6)).ev ++
      (start_finish reload (start_loop o reload families 1 s).rv
        (start_loop o reload families 1 s).st).ev := by
  simp only [start, start_loop, families, start_entry, List.append_nil, List.append_assoc]
  rw [start_family_ev_rv o reload _ .V6 _ 1]

theorem stop_family_of_tears (o : Outcomes) (complete reload : Bool) (s : State)
    (f : fw3_family) (rv : Int) (h : stop_tears_down o complete s f = true) :
    stop_family o complete reload f rv s =
      ⟨0, family_set_both s f false,
       (restore_pipe o s f true).2 ++ stop_tables o s complete reload f tables ++
       [Event.command_close]⟩ := by
  simp only [stop_tears_down, Bool.and_eq_true, Bool.or_eq_true] at h
  obtain ⟨h1, h2⟩ := h
  have h3 : (!complete && !family_running s f) = false := by
    rcases h1 with h1 | h1 <;> simp [h1]
  simp [stop_family, h3, h2]

theorem stop_family_of_not (o : Outcomes) (complete reload : Bool) (s : State)
    (f : fw3_family) (rv : Int) (h : stop_tears_down o complete s f = false) :
    (stop_family o complete reload f rv s).rv = rv ∧
      (stop_family o complete reload f rv s).st = s := by
  unfold stop_family
  by_cases h1 : (!complete && !family_running s f) = true
  · simp [h1]
  · have h3 : (restore_pipe o s f true).1 = false := by
      simp only [Bool.not_eq_true] at h1
      cases hc : complete <;> cases hf : family_running s f <;>
        simp_all [stop_tears_down]
    simp [h1, h3]

theorem stop_family_rv (o : Outcomes) (complete reload : Bool) (s : State)
    (f : fw3_family) (rv : Int) :
    (stop_family o complete reload f rv s).rv =
      if stop_tears_down o complete s f then 0 else rv := by
  cases h : stop_tears_down o complete s f
  · simp [(stop_family_of_not o complete reload s f rv h).1]
  · simp [stop_family_of_tears o complete reload s f rv h]

theorem stop_family_st (o : Outcomes) (complete reload : Bool) (s : State)
    (f : fw3_family) (rv : Int) :
    (stop_family o complete reload f rv s).st =
      if stop_tears_down o complete s f then family_set_both s f false else s := by
  cases h : stop_tears_down o complete s f
  · simp [(stop_family_of_not o complete reload s f rv h).2]
  · simp [stop_family_of_tears o complete reload s f rv h]

theorem stop_family_ev_rv (o : Outcomes) (complete reload : Bool) (s : State)
    (f : fw3_family) (rv rv2 : Int) :
    (stop_family o complete reload f rv s).ev =
      (stop_family o complete reload f rv2 s).ev := by
  unfold stop_family
  by_cases h1 : (!complete && !family_running s f) = true
  · simp [h1]
  · cases h3 : (restore_pipe o s f true).1 <;> simp [h1, h3]

theorem stop_family_mentions (o : Outcomes) (complete reload : Bool) (s : State)
    (f g : fw3_family) (rv : Int) (h : g ≠ f) :
    ∀ e ∈ (stop_family o complete reload g rv s).ev, e.mentions f = false := by
  intro e he
  unfold stop_family at he
  by_cases h1 : (!complete && !family_running s g) = true
  · simp [h1] at he
  · cases h3 : (restore_pipe o s g true).1
    · simp [h1, h3] at he
      exact restore_pipe_mentions o s f g true h e he
    · simp [h1, h3] at he
      rcases he with he | he | he
      · exact restore_pipe_mentions o s f g true h e he
      · exact stop_tables_mentions o s complete reload f g h tables e he
      · subst he
        rfl

theorem stop_ipsets_mentions (o : Outcomes) (reload : Bool) (s : State)
    (f : fw3_family) : ∀ e ∈ stop_ipsets o reload s, e.mentions f = false := by
  intro e he
  unfold stop_ipsets at he
  by_cases h1 : (!reload && s.run_state.isSome) = true
  · by_cases h2 : o.command_pipe .ipset = true
    · simp [h1, h2] at he
      rcases he with he | he | he <;> subst he <;> cases f <;> rfl
    · simp [h1, h2] at he
      subst he
      cases f <;> rfl
  · simp [h1] at he

theorem stop_conntrack_mentions (o : Outcomes) (complete : Bool)
    (f : fw3_family) : ∀ e ∈ stop_conntrack o complete, e.mentions f = false := by
  intro e he
  unfold stop_conntrack at he
  cases complete
  · simp at he
  · by_cases h2 : o.conntrack = true
    · simp [h2] at he
      rcases he with he | he | he | he <;> subst he <;> rfl
    · simp [h2] at he
      subst he
      rfl

theorem stop_tears_down_entry (o : Outcomes) (complete reload : Bool) (s : State)
    (f : fw3_family) :
    stop_tears_down o complete (stop_entry o complete reload s f) f =
      stop_tears_down o complete s f := by
  cases f
  · rfl
  · simp only [stop_entry, stop_family_st]
    cases h : stop_tears_down o complete s .V4
    · simp
    · simp only [if_true, stop_tears_down]
      rw [family_set_both_running_ne s .V4 .V6 false (by decide),
        restore_pipe_print_rules o s _ .V6 true (family_set_both_print_rules s .V4 false)]

theorem stop_entry_isSome (o : Outcomes) (complete reload : Bool) (s : State)
    (f : fw3_family) :
    (stop_entry o complete reload s f).run_state.isSome = s.run_state.isSome := by
  cases f
  · rfl
  · simp only [stop_entry, stop_family_st]
    split
    · exact family_set_both_isSome s .V4 false
    · rfl

theorem stop_entry_print_rules (o : Outcomes) (complete reload : Bool) (s : State)
    (f : fw3_family) :
    (stop_entry o complete reload s f).print_rules = s.print_rules := by
  cases f
  · rfl
  · simp only [stop_entry, stop_family_st]
    split <;> rfl

theorem start_entry_print_rules (o : Outcomes) (reload : Bool) (s : State)
    (f : fw3_family) :
    (start_entry o reload s f).print_rules = s.print_rules := by
  cases f
  · rfl
  · simp only [start_entry, start_family_st]
    split <;> rfl

theorem stop_loop_ev (o : Outcomes) (complete reload : Bool) (s : State) :
    (stop_loop o complete reload families 1 s).ev =
      (stop_family o complete reload .V4 1 s).ev ++
      (stop_family o complete reload .V6 1 (stop_entry o complete reload s .V6)).ev := by
  simp only [stop_loop, families, stop_entry, List.append_nil]
  rw [stop_family_ev_rv o complete reload _ .V6 _ 1]

theorem stop_not_idle (complete : Bool) (s : State)
    (h : complete = true ∨ s.run_state.isSome = true) :
    (!complete && s.run_state.isNone) = false := by
  rcases h with h | h
  · simp [h]
  · cases hr : s.run_state <;> simp [hr] at h ⊢

theorem stop_ev (o : Outcomes) (complete reload : Bool) (s : State)
    (h : complete = true ∨ s.run_state.isSome = true) :
    (stop o complete reload s).ev =
      stop_hotplug s ++
      (stop_family o complete reload .V4 1 s).ev ++
      (stop_family o complete reload .V6 1 (stop_entry o complete reload s .V6)).ev ++
      stop_after o complete reload (stop_loop o complete reload families 1 s) := by
  unfold stop stop_after
  rw [stop_not_idle complete s h]
  simp only [Bool.false_eq_true, if_false]
  by_cases hc : ((stop_loop o complete reload families 1 s).rv == 0 &&
      (stop_loop o complete reload families 1 s).st.run_state.isSome) = true
  · simp only [hc, if_true, stop_loop_ev, List.append_assoc]
  · simp only [hc, if_false, stop_loop_ev, List.append_assoc, List.append_nil,
      Bool.false_eq_true]

theorem stop_hotplug_mentions (s : State) (f : fw3_family) :
    ∀ e ∈ stop_hotplug s, e.mentions f = false := by
  intro e he
  unfold stop_hotplug at he
  split at he
  · rw [List.mem_singleton] at he
    subst he
    rfl
  · simp at he

theorem stop_after_mentions (o : Outcomes) (complete reload : Bool) (r : Run)
    (f : fw3_family) : ∀ e ∈ stop_after o complete reload r, e.mentions f = false := by
  intro e he
  unfold stop_after at he
  rcases List.mem_append.1 he with he | he
  · rcases List.mem_append.1 he with he | he
    · exact stop_ipsets_mentions o reload _ f e he
    · exact stop_conntrack_mentions o complete f e he
  · split at he
    · rw [List.mem_singleton] at he
      subst he
      rfl
    · simp at he

theorem stop_tears_down_ok (o : Outcomes) (complete : Bool) (s : State)
    (f : fw3_family) (h : stop_tears_down o complete s f = true) :
    complete = true ∨ s.run_state.isSome = true := by
  simp only [stop_tears_down, Bool.and_eq_true, Bool.or_eq_true] at h
  rcases h.1 with h1 | h1
  · exact Or.inl h1
  · exact Or.inr (family_running_isSome s f h1)

theorem start_populates_sink (o : Outcomes) (reload : Bool) (s : State)
    (f : fw3_family) (h : start_populates o reload s f = true) :
    (restore_pipe o s f false).1 = true := by
  simp only [start_populates, Bool.and_eq_true] at h
  exact h.2

theorem stop_tears_down_sink (o : Outcomes) (complete : Bool) (s : State)
    (f : fw3_family) (h : stop_tears_down o complete s f = true) :
    (restore_pipe o s f true).1 = true := by
  simp only [stop_tears_down, Bool.and_eq_true] at h
  exact h.2

theorem start_family_segment (o : Outcomes) (reload : Bool) (s : State)
    (f : fw3_family) (rv : Int) (h : start_populates o reload s f = true) :
    (start_family o reload f rv s).ev = spec_populate_family o s.print_rules reload f := by
  rw [start_family_of_populates o reload s f rv h,
    restore_pipe_snd_ok o s f false (start_populates_sink o reload s f h),
    start_tables_eq]
  rfl

theorem stop_family_segment (o : Outcomes) (complete reload : Bool) (s : State)
    (f : fw3_family) (rv : Int) (h : stop_tears_down o complete s f = true) :
    (stop_family o complete reload f rv s).ev =
      spec_teardown_family o s.print_rules complete reload f := by
  rw [stop_family_of_tears o complete reload s f rv h,
    restore_pipe_snd_ok o s f true (stop_tears_down_sink o complete s f h),
    stop_tables_eq o s complete reload f tables (stop_tears_down_ok o complete s f h)]
  rfl

theorem stop_tables_complete (o : Outcomes) (s : State) (reload : Bool)
    (f : fw3_family) (ts : List fw3_table) :
    ∀ e ∈ stop_tables o s true reload f ts, e.is_object_flush = false := by
  induction ts with
  | nil => intro e he; simp [stop_tables] at he
  | cons t rest ih =>
    intro e he
    simp only [stop_tables, List.mem_append] at he
    rcases he with he | he
    · by_cases ht : o.has_table (f == .V6) t = true
      · simp [ht, stop_table] at he
        rcases he with he | he | he | he <;> subst he <;> rfl
      · simp [ht] at he
    · exact ih e he

theorem restore_pipe_no_flush (o : Outcomes) (s : State) (f : fw3_family)
    (silent : Bool) : ∀ e ∈ (restore_pipe o s f silent).2, e.is_object_flush = false := by
  intro e he
  unfold restore_pipe at he
  by_cases hp : s.print_rules = true
  · simp [hp] at he
    subst he
    rfl
  · by_cases hc : o.command_pipe (restore_cmd f) = true
    · simp [hp, hc] at he
      subst he
      rfl
    · simp [hp, hc] at he
      rcases he with he | he <;> subst he <;> rfl

theorem stop_family_complete (o : Outcomes) (reload : Bool) (s : State)
    (f : fw3_family) (rv : Int) :
    ∀ e ∈ (stop_family o true reload f rv s).ev, e.is_object_flush = false := by
  intro e he
  unfold stop_family at he
  cases h3 : (restore_pipe o s f true).1
  · simp [h3] at he
    exact restore_pipe_no_flush o s f true e he
  · simp [h3] at he
    rcases he with he | he | he
    · exact restore_pipe_no_flush o s f true e he
    · exact stop_tables_complete o s reload f tables e he
    · subst he
      rfl

theorem stop_after_no_flush (o : Outcomes) (complete reload : Bool) (r : Run) :
    ∀ e ∈ stop_after o complete reload r, e.is_object_flush = false := by
  intro e he
  unfold stop_after stop_ipsets stop_conntrack at he
  rcases List.mem_append.1 he with he | he
  · rcases List.mem_append.1 he with he | he
    · split at he
      · split at he
        · simp at he
          rcases he with he | he | he <;> subst he <;> rfl
        · simp at he
          subst he
          rfl
      · simp at he
    · split at he
      · split at he
        · simp at he
          rcases he with he | he | he | he <;> subst he <;> rfl
        · simp at he
          subst he
          rfl
      · simp at he
  · split at he
    · rw [List.mem_singleton] at he
      subst he
      rfl
    · simp at he

theorem stop_hotplug_no_flush (s : State) :
    ∀ e ∈ stop_hotplug s, e.is_object_flush = false := by
  intro e he
  unfold stop_hotplug at he
  split at he
  · rw [List.mem_singleton] at he
    subst he
    rfl
  · simp at he

/-! ## C1: stop on a firewall with no active family -/

/-- C1 (as stated, refuted): with an active Snapshot whose bitmap is empty,
stop(complete=false, reload=false) does open a sink, the ipset sink, and
destroys the ipsets of the active Snapshot. -/
theorem stop_idle_opens_ipset_sink :
    family_running stopped_state .V4 = false ∧
    family_running stopped_state .V6 = false ∧
    (stop all_ok false false stopped_state).ev =
      [Event.hotplug_zones .run false, Event.command_pipe false .ipset true,
       Event.destroy_ipsets .run, Event.command_close] := by
  refine ⟨rfl, rfl, rfl⟩

/-- C1 (amended): when no family is marked active, stop(complete=false,
reload=false) returns 1 and leaves both Snapshots and the persisted bitmap as
they were.  With no active Snapshot its only call is the warning.  With an
active Snapshot it notifies hotplug (unless printing) and runs the ipset
session: it opens the ipset sink and, when that opens, destroys the ipsets
and closes it.  No restore sink is opened, no rule-program line is emitted
and no state file is written. -/
theorem stop_idle (o : Outcomes) (s : State)
    (h4 : family_running s .V4 = false) (h6 : family_running s .V6 = false) :
    (stop o false false s).rv = 1 ∧
    (stop o false false s).st = s ∧
    (stop o false false s).ev =
      match s.run_state with
      | none => [Event.warn_stopped]
      | some _ =>
        (if s.print_rules then [] else [Event.hotplug_zones .run false]) ++
        (if o.command_pipe .ipset then
          [Event.command_pipe false .ipset true, Event.destroy_ipsets .run,
           Event.command_close]
         else [Event.command_pipe false .ipset false]) := by
  cases hr : s.run_state with
  | none => simp [stop, hr]
  | some r =>
    cases hp : s.print_rules <;> cases hc : o.command_pipe .ipset <;>
      simp [stop, hr, stop_loop, families, stop_family, h4, h6, stop_ipsets,
        stop_conntrack, stop_hotplug, hp, hc]

/-- C1 (amended), at the stopped firewall with every sink opening. -/
theorem stop_idle_witness :
    (family_running stopped_state .V4 = false ∧
     family_running stopped_state .V6 = false) ∧
    (stop all_ok false false stopped_state).rv = 1 ∧
    (stop all_ok false false stopped_state).st = stopped_state ∧
    (stop all_ok false false stopped_state).ev =
      match stopped_state.run_state with
      | none => [Event.warn_stopped]
      | some _ =>
        (if stopped_state.print_rules then [] else [Event.hotplug_zones .run false]) ++
        (if all_ok.command_pipe .ipset then
          [Event.command_pipe false .ipset true, Event.destroy_ipsets .run,
           Event.command_close]
         else [Event.command_pipe false .ipset false]) :=
  ⟨⟨rfl, rfl⟩, stop_idle all_ok stopped_state rfl rfl⟩

/-! ## C2: the fixed sequence of start -/

theorem start_family_run (o : Outcomes) (reload : Bool) (s : State)
    (family : fw3_family) (h : start_populates o reload s family = true) :
    ∃ pre post,
      (start o reload s).ev =
        pre ++ spec_populate_family o s.print_rules reload family ++ post ∧
      (∀ e ∈ pre, e.mentions family = false) ∧
      (∀ e ∈ post, e.mentions family = false) := by
  cases family with
  | V4 =>
    refine ⟨start_ipsets o reload s,
      (start_family o reload .V6 1 (start_entry o reload s .V6)).ev ++
      (start_finish reload (start_loop o reload families 1 s).rv
        (start_loop o reload families 1 s).st).ev, ?_, ?_, ?_⟩
    · rw [start_ev, start_family_segment o reload s .V4 1 h]
      simp only [List.append_assoc]
    · exact start_ipsets_mentions o reload s .V4
    · intro e he
      rcases List.mem_append.1 he with he | he
      · exact start_family_mentions o reload _ .V4 .V6 1 (by decide) e he
      · exact start_finish_mentions reload _ _ .V4 e he
  | V6 =>
    have h2 := h
    rw [← start_populates_entry] at h2
    refine ⟨start_ipsets o reload s ++ (start_family o reload .V4 1 s).ev,
      (start_finish reload (start_loop o reload families 1 s).rv
        (start_loop o reload families 1 s).st).ev, ?_, ?_, ?_⟩
    · rw [start_ev, start_family_segment o reload _ .V6 1 h2, start_entry_print_rules]
    · intro e he
      rcases List.mem_append.1 he with he | he
      · exact start_ipsets_mentions o reload s .V6 e he
      · exact start_family_mentions o reload _ .V6 .V4 1 (by decide) e he
    · exact start_finish_mentions reload _ _ .V6

theorem spec_populate_family_eq (o : Outcomes) (print_rules reload : Bool)
    (family : fw3_family) :
    spec_populate_family o print_rules reload family =
      (if print_rules then [Event.stdout_pipe true]
        else [Event.command_pipe false (restore_cmd family) true]) ++
      (present_tables o family).flatMap
        (fun table =>
          [Event.info_table .Populating family table,
           Event.pr_table table,
           Event.print_default_chains .cfg family table reload,
           Event.print_zone_chains .cfg family table reload,
           Event.print_default_head_rules .cfg family table reload,
           Event.print_rules .cfg family table,
           Event.print_redirects .cfg family table,
           Event.print_forwards .cfg family table,
           Event.print_zone_rules .cfg family table reload,
           Event.print_default_tail_rules .cfg family table reload,
           Event.pr_commit]) ++
      [Event.print_includes .cfg family reload, Event.command_close] := rfl

/-- C2: for every family start populates, the calls of start that name the
family are one contiguous run: the sink open, then for every present table,
in loop order, the progress message followed by exactly table header,
default chains, zone chains, default head rules, rules, redirects, forwards,
zone rules, default tail rules, COMMIT, then the include directives of the
family, then the close of the sink.  Nothing before or after this run names
the family. -/
theorem start_fixed_sequence (o : Outcomes) (reload : Bool) (s : State)
    (family : fw3_family) (h : start_populates o reload s family = true) :
    ∃ pre post,
      (start o reload s).ev =
        pre ++
        ((if s.print_rules then [Event.stdout_pipe true]
          else [Event.command_pipe false (restore_cmd family) true]) ++
         (present_tables o family).flatMap
          (fun table =>
            [Event.info_table .Populating family table,
             Event.pr_table table,
             Event.print_default_chains .cfg family table reload,
             Event.print_zone_chains .cfg family table reload,
             Event.print_default_head_rules .cfg family table reload,
             Event.print_rules .cfg family table,
             Event.print_redirects .cfg family table,
             Event.print_forwards .cfg family table,
             Event.print_zone_rules .cfg family table reload,
             Event.print_default_tail_rules .cfg family table reload,
             Event.pr_commit]) ++
         [Event.print_includes .cfg family reload, Event.command_close]) ++
        post ∧
      (∀ e ∈ pre, e.mentions family = false) ∧
      (∀ e ∈ post, e.mentions family = false) := by
  obtain ⟨pre, post, h1, h2, h3⟩ := start_family_run o reload s family h
  rw [spec_populate_family_eq] at h1
  exact ⟨pre, post, h1, h2, h3⟩

/-- C2, at a first-ever start with every sink opening, for IPv4. -/
theorem start_fixed_sequence_witness :
    start_populates all_ok false fresh_state .V4 = true ∧
    ∃ pre post,
      (start all_ok false fresh_state).ev =
        pre ++ spec_populate_family all_ok false false .V4 ++ post ∧
      (∀ e ∈ pre, e.mentions .V4 = false) ∧
      (∀ e ∈ post, e.mentions .V4 = false) :=
  ⟨rfl, start_fixed_sequence all_ok false fresh_state .V4 rfl⟩

/-! ## C3: the teardown sequence of stop -/

theorem stop_family_run (o : Outcomes) (complete reload : Bool) (s : State)
    (family : fw3_family) (h : stop_tears_down o complete s family = true) :
    ∃ pre post,
      (stop o complete reload s).ev =
        pre ++ spec_teardown_family o s.print_rules complete reload family ++ post ∧
      (∀ e ∈ pre, e.mentions family = false) ∧
      (∀ e ∈ post, e.mentions family = false) := by
  have hok := stop_tears_down_ok o complete s family h
  cases family with
  | V4 =>
    refine ⟨stop_hotplug s,
      (stop_family o complete reload .V6 1 (stop_entry o complete reload s .V6)).ev ++
      stop_after o complete reload (stop_loop o complete reload families 1 s),
      ?_, ?_, ?_⟩
    · rw [stop_ev o complete reload s hok, stop_family_segment o complete reload s .V4 1 h]
      simp only [List.append_assoc]
    · exact stop_hotplug_mentions s .V4
    · intro e he
      rcases List.mem_append.1 he with he | he
      · exact stop_family_mentions o complete reload _ .V4 .V6 1 (by decide) e he
      · exact stop_after_mentions o complete reload _ .V4 e he
  | V6 =>
    have h2 := h
    rw [← stop_tears_down_entry o complete reload] at h2
    refine ⟨stop_hotplug s ++ (stop_family o complete reload .V4 1 s).ev,
      stop_after o complete reload (stop_loop o complete reload families 1 s),
      ?_, ?_, ?_⟩
    · rw [stop_ev o complete reload s hok,
        stop_family_segment o complete reload _ .V6 1 h2, stop_entry_print_rules]
    · intro e he
      rcases List.mem_append.1 he with he | he
      · exact stop_hotplug_mentions s .V6 e he
      · exact stop_family_mentions o complete reload _ .V6 .V4 1 (by decide) e he
    · exact stop_after_mentions o complete reload _ .V6

theorem stop_complete_no_flush (o : Outcomes) (reload : Bool) (s : State) :
    ∀ e ∈ (stop o true reload s).ev, e.is_object_flush = false := by
  intro e he
  rw [stop_ev o true reload s (Or.inl rfl)] at he
  rcases List.mem_append.1 he with he | he
  · rcases List.mem_append.1 he with he | he
    · rcases List.mem_append.1 he with he | he
      · exact stop_hotplug_no_flush s e he
      · exact stop_family_complete o reload _ .V4 1 e he
    · exact stop_family_complete o reload _ .V6 1 e he
  · exact stop_after_no_flush o true reload _ e he

theorem spec_teardown_family_eq (o : Outcomes) (print_rules complete reload : Bool)
    (family : fw3_family) :
    spec_teardown_family o print_rules complete reload family =
      (if print_rules then [Event.stdout_pipe true]
        else [Event.command_pipe true (restore_cmd family) true]) ++
      (present_tables o family).flatMap
        (fun table =>
          if complete then
            [Event.info_table .Flushing family table,
             Event.pr_table table,
             Event.flush_all table,
             Event.pr_commit]
          else
            [Event.info_table .Clearing family table,
             Event.pr_table table,
             Event.flush_rules .run family table reload false,
             Event.flush_zones .run family table reload false,
             Event.flush_rules .run family table reload true,
             Event.flush_zones .run family table reload true,
             Event.pr_commit]) ++
      [Event.command_close] := by
  cases complete <;> rfl

/-- C3: for every family stop tears down, the calls of stop that name the
family are one contiguous run: the sink open, then for every present table,
in loop order, the progress message followed by exactly, for a stop that is
not complete, table header, rule flush and zone flush of pass 1, rule flush
and zone flush of pass 2, COMMIT, and for a complete stop table header,
flush-all, COMMIT; then the close of the sink.  Nothing before or after this
run names the family, and a complete stop makes no per-object flush call at
all. -/
theorem stop_teardown_sequence (o : Outcomes) (complete reload : Bool) (s : State)
    (family : fw3_family) (h : stop_tears_down o complete s family = true) :
    (∃ pre post,
      (stop o complete reload s).ev =
        pre ++
        ((if s.print_rules then [Event.stdout_pipe true]
          else [Event.command_pipe true (restore_cmd family) true]) ++
         (present_tables o family).flatMap
          (fun table =>
            if complete then
              [Event.info_table .Flushing family table,
               Event.pr_table table,
               Event.flush_all table,
               Event.pr_commit]
            else
              [Event.info_table .Clearing family table,
               Event.pr_table table,
               Event.flush_rules .run family table reload false,
               Event.flush_zones .run family table reload false,
               Event.flush_rules .run family table reload true,
               Event.flush_zones .run family table reload true,
               Event.pr_commit]) ++
         [Event.command_close]) ++
        post ∧
      (∀ e ∈ pre, e.mentions family = false) ∧
      (∀ e ∈ post, e.mentions family = false)) ∧
    (complete = true →
      ∀ e ∈ (stop o complete reload s).ev, e.is_object_flush = false) := by
  constructor
  · obtain ⟨pre, post, h1, h2, h3⟩ := stop_family_run o complete reload s family h
    rw [spec_teardown_family_eq] at h1
    exact ⟨pre, post, h1, h2, h3⟩
  · intro hc
    subst hc
    exact stop_complete_no_flush o reload s

/-- C3, at a stop of a running IPv4 firewall with every sink opening. -/
theorem stop_teardown_sequence_witness :
    stop_tears_down all_ok false running_state .V4 = true ∧
    ∃ pre post,
      (stop all_ok false false running_state).ev =
        pre ++ spec_teardown_family all_ok false false false .V4 ++ post ∧
      (∀ e ∈ pre, e.mentions .V4 = false) ∧
      (∀ e ∈ post, e.mentions .V4 = false) :=
  ⟨rfl, (stop_teardown_sequence all_ok false false running_state .V4 rfl).1⟩

/-! ## Status and bitmaps after start and stop -/

theorem start_loop_rv (o : Outcomes) (reload : Bool) (s : State) :
    (start_loop o reload families 1 s).rv =
      if start_populates o reload s .V4 || start_populates o reload s .V6 then 0 else 1 := by
  have h6 := start_populates_entry o reload s .V6
  simp only [start_entry] at h6
  simp only [start_loop, families, start_family_rv, h6]
  cases start_populates o reload s .V4 <;> cases start_populates o reload s .V6 <;> rfl

theorem start_loop_st (o : Outcomes) (reload : Bool) (s : State) :
    (start_loop o reload families 1 s).st =
      if start_populates o reload s .V6 then
        family_set_both (start_entry o reload s .V6) .V6 true
      else start_entry o reload s .V6 := by
  have h6 := start_populates_entry o reload s .V6
  simp only [start_entry] at h6
  simp only [start_loop, families]
  rw [start_family_st o reload (start_family o reload .V4 1 s).st .V6, h6]
  rfl

theorem start_rv (o : Outcomes) (reload : Bool) (s : State) :
    (start o reload s).rv =
      if start_populates o reload s .V4 || start_populates o reload s .V6 then 0 else 1 := by
  have h : (start o reload s).rv = (start_loop o reload families 1 s).rv := by
    simp only [start, start_finish]
    split
    · split <;> rfl
    · rfl
  rw [h, start_loop_rv]

theorem start_st_cases (o : Outcomes) (reload : Bool) (s : State) :
    (start o reload s).st = (start_loop o reload families 1 s).st ∨
    (start o reload s).st =
      fw3_write_statefile (start_loop o reload families 1 s).st .cfg := by
  simp only [start, start_finish]
  split
  · split
    · exact Or.inr rfl
    · exact Or.inl rfl
  · exact Or.inl rfl

theorem start_entry_cfg_flag (o : Outcomes) (reload : Bool) (s : State)
    (f : fw3_family) :
    has_flag (start_entry o reload s .V6).cfg_state.defaults.flags f =
      if f = .V4 then
        (start_populates o reload s .V4 || has_flag s.cfg_state.defaults.flags .V4)
      else has_flag s.cfg_state.defaults.flags f := by
  simp only [start_entry, start_family_st]
  cases start_populates o reload s .V4 <;> cases f <;>
    simp [family_set_both_cfg_flag]

theorem isSome_and_running (s : State) (g : fw3_family) :
    (s.run_state.isSome && family_running s g) = family_running s g := by
  cases hr : s.run_state <;> simp [family_running, hr]

theorem start_entry_running (o : Outcomes) (reload : Bool) (s : State)
    (f : fw3_family) :
    family_running (start_entry o reload s .V6) f =
      if f = .V4 then
        (s.run_state.isSome && (start_populates o reload s .V4 || family_running s .V4))
      else family_running s f := by
  simp only [start_entry, start_family_st]
  cases hp : start_populates o reload s .V4 <;> cases f <;>
    simp [family_set_both_running, isSome_and_running]

theorem start_entry_isSome (o : Outcomes) (reload : Bool) (s : State)
    (f : fw3_family) :
    (start_entry o reload s f).run_state.isSome = s.run_state.isSome := by
  cases f
  · rfl
  · simp only [start_entry, start_family_st]
    split
    · exact family_set_both_isSome s .V4 true
    · rfl

theorem start_entry_disable_ipv6 (o : Outcomes) (reload : Bool) (s : State)
    (f : fw3_family) :
    (start_entry o reload s f).cfg_state.defaults.disable_ipv6 =
      s.cfg_state.defaults.disable_ipv6 := by
  cases f
  · rfl
  · simp only [start_entry, start_family_st]
    split
    · exact family_set_both_disable_ipv6 s .V4 true
    · rfl

theorem start_loop_cfg_flag (o : Outcomes) (reload : Bool) (s : State)
    (f : fw3_family) :
    has_flag (start_loop o reload families 1 s).st.cfg_state.defaults.flags f =
      (start_populates o reload s f || has_flag s.cfg_state.defaults.flags f) := by
  rw [start_loop_st]
  cases h6 : start_populates o reload s .V6 <;> cases f <;>
    simp [family_set_both_cfg_flag, start_entry_cfg_flag, h6]

theorem start_loop_running (o : Outcomes) (reload : Bool) (s : State)
    (f : fw3_family) :
    family_running (start_loop o reload families 1 s).st f =
      (s.run_state.isSome && (start_populates o reload s f || family_running s f)) := by
  rw [start_loop_st]
  cases h6 : start_populates o reload s .V6 <;> cases f <;>
    simp [family_set_both_running, start_entry_running, start_entry_isSome,
      isSome_and_running, h6]

theorem start_cfg_flag (o : Outcomes) (reload : Bool) (s : State) (f : fw3_family) :
    has_flag (start o reload s).st.cfg_state.defaults.flags f =
      (start_populates o reload s f || has_flag s.cfg_state.defaults.flags f) := by
  rcases start_st_cases o reload s with h | h <;> rw [h]
  · exact start_loop_cfg_flag o reload s f
  · exact start_loop_cfg_flag o reload s f

theorem start_running (o : Outcomes) (reload : Bool) (s : State) (f : fw3_family) :
    family_running (start o reload s).st f =
      (s.run_state.isSome && (start_populates o reload s f || family_running s f)) := by
  rcases start_st_cases o reload s with h | h <;> rw [h]
  · exact start_loop_running o reload s f
  · exact start_loop_running o reload s f

theorem stop_loop_rv (o : Outcomes) (complete reload : Bool) (s : State) :
    (stop_loop o complete reload families 1 s).rv =
      if stop_tears_down o complete s .V4 || stop_tears_down o complete s .V6 then 0
      else 1 := by
  have h6 := stop_tears_down_entry o complete reload s .V6
  simp only [stop_entry] at h6
  simp only [stop_loop, families]
  rw [stop_family_rv o complete reload (stop_family o complete reload .V4 1 s).st .V6, h6,
    stop_family_rv]
  cases stop_tears_down o complete s .V4 <;> cases stop_tears_down o complete s .V6 <;> rfl

theorem stop_loop_st (o : Outcomes) (complete reload : Bool) (s : State) :
    (stop_loop o complete reload families 1 s).st =
      if stop_tears_down o complete s .V6 then
        family_set_both (stop_entry o complete reload s .V6) .V6 false
      else stop_entry o complete reload s .V6 := by
  have h6 := stop_tears_down_entry o complete reload s .V6
  simp only [stop_entry] at h6
  simp only [stop_loop, families]
  rw [stop_family_st o complete reload (stop_family o complete reload .V4 1 s).st .V6, h6]
  rfl

theorem stop_idle_tears_down (o : Outcomes) (s : State) (f : fw3_family)
    (h : s.run_state.isNone = true) : stop_tears_down o false s f = false := by
  cases hr : s.run_state with
  | none => simp [stop_tears_down, family_running, hr]
  | some r => simp [hr] at h

theorem stop_rv (o : Outcomes) (complete reload : Bool) (s : State) :
    (stop o complete reload s).rv =
      if stop_tears_down o complete s .V4 || stop_tears_down o complete s .V6 then 0
      else 1 := by
  unfold stop
  by_cases h0 : (!complete && s.run_state.isNone) = true
  · simp only [Bool.and_eq_true, Bool.not_eq_true'] at h0
    obtain ⟨hc, hn⟩ := h0
    subst hc
    simp [hn, stop_idle_tears_down o s _ hn]
  · rw [if_neg h0]
    simp only []
    split <;> exact stop_loop_rv o complete reload s

theorem stop_st_cases (o : Outcomes) (complete reload : Bool) (s : State) :
    (stop o complete reload s).st = (stop_loop o complete reload families 1 s).st ∨
    (stop o complete reload s).st =
      fw3_write_statefile (stop_loop o complete reload families 1 s).st .run := by
  unfold stop
  by_cases h0 : (!complete && s.run_state.isNone) = true
  · simp only [Bool.and_eq_true, Bool.not_eq_true'] at h0
    obtain ⟨hc, hn⟩ := h0
    subst hc
    left
    rw [stop_loop_st]
    simp [hn, stop_idle_tears_down o s _ hn, stop_entry, stop_family_st]
  · rw [if_neg h0]
    simp only []
    split
    · exact Or.inr rfl
    · exact Or.inl rfl

theorem stop_entry_cfg_flag (o : Outcomes) (complete reload : Bool) (s : State)
    (f : fw3_family) :
    has_flag (stop_entry o complete reload s .V6).cfg_state.defaults.flags f =
      if f = .V4 then
        (!stop_tears_down o complete s .V4 && has_flag s.cfg_state.defaults.flags .V4)
      else has_flag s.cfg_state.defaults.flags f := by
  simp only [stop_entry, stop_family_st]
  cases stop_tears_down o complete s .V4 <;> cases f <;>
    simp [family_set_both_cfg_flag]

theorem stop_entry_running (o : Outcomes) (complete reload : Bool) (s : State)
    (f : fw3_family) :
    family_running (stop_entry o complete reload s .V6) f =
      if f = .V4 then
        (!stop_tears_down o complete s .V4 && family_running s .V4)
      else family_running s f := by
  simp only [stop_entry, stop_family_st]
  cases hp : stop_tears_down o complete s .V4 <;> cases f <;>
    simp [family_set_both_running, isSome_and_running]

theorem stop_entry_disable_ipv6 (o : Outcomes) (complete reload : Bool) (s : State)
    (f : fw3_family) :
    (stop_entry o complete reload s f).cfg_state.defaults.disable_ipv6 =
      s.cfg_state.defaults.disable_ipv6 := by
  cases f
  · rfl
  · simp only [stop_entry, stop_family_st]
    split
    · exact family_set_both_disable_ipv6 s .V4 false
    · rfl

theorem stop_loop_cfg_flag (o : Outcomes) (complete reload : Bool) (s : State)
    (f : fw3_family) :
    has_flag (stop_loop o complete reload families 1 s).st.cfg_state.defaults.flags f =
      (!stop_tears_down o complete s f && has_flag s.cfg_state.defaults.flags f) := by
  rw [stop_loop_st]
  cases h6 : stop_tears_down o complete s .V6 <;> cases f <;>
    simp [family_set_both_cfg_flag, stop_entry_cfg_flag, h6]

theorem stop_loop_running (o : Outcomes) (complete reload : Bool) (s : State)
    (f : fw3_family) :
    family_running (stop_loop o complete reload families 1 s).st f =
      (!stop_tears_down o complete s f && family_running s f) := by
  rw [stop_loop_st]
  cases h6 : stop_tears_down o complete s .V6 <;> cases f <;>
    simp [family_set_both_running, stop_entry_running, stop_entry_isSome,
      isSome_and_running, h6]
  intro _ h
  exact family_running_isSome s .V4 h

theorem stop_cfg_flag (o : Outcomes) (complete reload : Bool) (s : State)
    (f : fw3_family) :
    has_flag (stop o complete reload s).st.cfg_state.defaults.flags f =
      (!stop_tears_down o complete s f && has_flag s.cfg_state.defaults.flags f) := by
  rcases stop_st_cases o complete reload s with h | h <;> rw [h]
  · exact stop_loop_cfg_flag o complete reload s f
  · exact stop_loop_cfg_flag o complete reload s f

theorem stop_running (o : Outcomes) (complete reload : Bool) (s : State)
    (f : fw3_family) :
    family_running (stop o complete reload s).st f =
      (!stop_tears_down o complete s f && family_running s f) := by
  rcases stop_st_cases o complete reload s with h | h <;> rw [h]
  · exact stop_loop_running o complete reload s f
  · exact stop_loop_running o complete reload s f

/-! ## C4: family independence -/

theorem start_family_ev_congr (o1 o2 : Outcomes) (reload : Bool) (f : fw3_family)
    (rv : Int) (s1 s2 : State) (hp : s1.print_rules = s2.print_rules)
    (hd : s1.cfg_state.defaults.disable_ipv6 = s2.cfg_state.defaults.disable_ipv6)
    (hr : family_running s1 f = family_running s2 f)
    (ht : o1.has_table = o2.has_table)
    (hc : o1.command_pipe (restore_cmd f) = o2.command_pipe (restore_cmd f))
    (hs : o1.stdout_pipe f = o2.stdout_pipe f) :
    (start_family o1 reload f rv s1).ev = (start_family o2 reload f rv s2).ev := by
  have hpipe : restore_pipe o1 s1 f false = restore_pipe o2 s2 f false := by
    simp [restore_pipe, hp, hc, hs]
  have htab : start_tables o1 reload f tables = start_tables o2 reload f tables := by
    rw [start_tables_eq, start_tables_eq, ht]
  unfold start_family
  rw [hpipe, htab, hp, hd, hr]
  by_cases h1 : (f == .V6 && s2.cfg_state.defaults.disable_ipv6) = true
  · simp [h1]
  · by_cases h2 : (!s2.print_rules && !reload && family_running s2 f) = true
    · simp [h1, h2]
    · cases h3 : (restore_pipe o2 s2 f false).1 <;> simp [h1, h2, h3]

theorem stop_family_ev_congr (o1 o2 : Outcomes) (complete reload : Bool)
    (f : fw3_family) (rv : Int) (s1 s2 : State)
    (hp : s1.print_rules = s2.print_rules)
    (hi : s1.run_state.isSome = s2.run_state.isSome)
    (hr : family_running s1 f = family_running s2 f)
    (ht : o1.has_table = o2.has_table)
    (hc : o1.command_pipe (restore_cmd f) = o2.command_pipe (restore_cmd f))
    (hs : o1.stdout_pipe f = o2.stdout_pipe f) :
    (stop_family o1 complete reload f rv s1).ev =
      (stop_family o2 complete reload f rv s2).ev := by
  have hpipe : restore_pipe o1 s1 f true = restore_pipe o2 s2 f true := by
    simp [restore_pipe, hp, hc, hs]
  have htab : stop_tables o1 s1 complete reload f tables =
      stop_tables o2 s2 complete reload f tables := by
    simp [stop_tables, stop_table, ht, hi]
  unfold stop_family
  rw [hpipe, htab, hr]
  by_cases h1 : (!complete && !family_running s2 f) = true
  · simp [h1]
  · cases h3 : (restore_pipe o2 s2 f true).1 <;> simp [h1, h3]

theorem agree_except_sink (o1 o2 : Outcomes) (s : State) (family other : fw3_family)
    (silent : Bool) (hne : family ≠ other) (h : agree_except other o1 o2) :
    (restore_pipe o1 s family silent).1 = (restore_pipe o2 s family silent).1 := by
  rw [restore_pipe_fst, restore_pipe_fst, h.2.2.1 _ (restore_cmd_ne hne), h.2.2.2 _ hne]

theorem agree_except_populates (o1 o2 : Outcomes) (reload : Bool) (s : State)
    (family other : fw3_family) (hne : family ≠ other) (h : agree_except other o1 o2) :
    start_populates o1 reload s family = start_populates o2 reload s family := by
  simp only [start_populates, agree_except_sink o1 o2 s family other false hne h]

theorem agree_except_tears_down (o1 o2 : Outcomes) (complete : Bool) (s : State)
    (family other : fw3_family) (hne : family ≠ other) (h : agree_except other o1 o2) :
    stop_tears_down o1 complete s family = stop_tears_down o2 complete s family := by
  simp only [stop_tears_down, agree_except_sink o1 o2 s family other true hne h]

theorem start_entry_running_self (o : Outcomes) (reload : Bool) (s : State)
    (f : fw3_family) : family_running (start_entry o reload s f) f = family_running s f := by
  cases f
  · rfl
  · simp [start_entry_running]

theorem stop_entry_running_self (o : Outcomes) (complete reload : Bool) (s : State)
    (f : fw3_family) :
    family_running (stop_entry o complete reload s f) f = family_running s f := by
  cases f
  · rfl
  · simp [stop_entry_running]

/-- C4: let two runs differ only in whether the sink of the other family
opens.  Then for start and for stop the calls made in the iteration of this
family (sink open, per-table emission, sink close) are the same list, the
family is processed in one run exactly when it is in the other, and its bit
in each Snapshot ends the same.  The trace of the command is these two
per-family runs in the order IPv4, IPv6 between a common frame, and the
command returns 0 whenever this family was processed. -/
theorem family_independence (o1 o2 : Outcomes) (complete reload : Bool) (s : State)
    (family other : fw3_family) (hne : family ≠ other) (h : agree_except other o1 o2) :
    (start_segment o1 reload s family = start_segment o2 reload s family ∧
     start_populates o1 reload s family = start_populates o2 reload s family ∧
     has_flag (start o1 reload s).st.cfg_state.defaults.flags family =
       has_flag (start o2 reload s).st.cfg_state.defaults.flags family ∧
     family_running (start o1 reload s).st family =
       family_running (start o2 reload s).st family) ∧
    (stop_segment o1 complete reload s family = stop_segment o2 complete reload s family ∧
     stop_tears_down o1 complete s family = stop_tears_down o2 complete s family ∧
     has_flag (stop o1 complete reload s).st.cfg_state.defaults.flags family =
       has_flag (stop o2 complete reload s).st.cfg_state.defaults.flags family ∧
     family_running (stop o1 complete reload s).st family =
       family_running (stop o2 complete reload s).st family) ∧
    (∃ pre post, (start o1 reload s).ev =
      pre ++ start_segment o1 reload s .V4 ++ start_segment o1 reload s .V6 ++ post) ∧
    (∃ pre post, (stop o1 complete reload s).ev =
      pre ++ stop_segment o1 complete reload s .V4 ++
        stop_segment o1 complete reload s .V6 ++ post) ∧
    (start_populates o1 reload s family = true → (start o1 reload s).rv = 0) ∧
    (stop_tears_down o1 complete s family = true →
      (stop o1 complete reload s).rv = 0) := by
  have hp := agree_except_populates o1 o2 reload s family other hne h
  have ht := agree_except_tears_down o1 o2 complete s family other hne h
  refine ⟨⟨?_, hp, ?_, ?_⟩, ⟨?_, ht, ?_, ?_⟩, ?_, ?_, ?_, ?_⟩
  · unfold start_segment
    apply start_family_ev_congr
    · rw [start_entry_print_rules, start_entry_print_rules]
    · rw [start_entry_disable_ipv6, start_entry_disable_ipv6]
    · rw [start_entry_running_self, start_entry_running_self]
    · exact h.1
    · exact h.2.2.1 _ (restore_cmd_ne hne)
    · exact h.2.2.2 _ hne
  · rw [start_cfg_flag, start_cfg_flag, hp]
  · rw [start_running, start_running, hp]
  · unfold stop_segment
    apply stop_family_ev_congr
    · rw [stop_entry_print_rules, stop_entry_print_rules]
    · rw [stop_entry_isSome, stop_entry_isSome]
    · rw [stop_entry_running_self, stop_entry_running_self]
    · exact h.1
    · exact h.2.2.1 _ (restore_cmd_ne hne)
    · exact h.2.2.2 _ hne
  · rw [stop_cfg_flag, stop_cfg_flag, ht]
  · rw [stop_running, stop_running, ht]
  · exact ⟨_, _, start_ev o1 reload s⟩
  · by_cases h0 : complete = true ∨ s.run_state.isSome = true
    · exact ⟨_, _, stop_ev o1 complete reload s h0⟩
    · have hn : s.run_state.isNone = true := by
        cases hr : s.run_state
        · rfl
        · exact absurd (Or.inr (by simp [hr])) h0
      have hc : complete = false := by
        cases complete
        · rfl
        · exact absurd (Or.inl rfl) h0
      subst hc
      refine ⟨(stop o1 false reload s).ev, [], ?_⟩
      have h4 : stop_segment o1 false reload s .V4 = [] := by
        unfold stop_segment
        simp [stop_family, stop_entry, family_running, Option.isNone_iff_eq_none.1 hn]
      have h6 : stop_segment o1 false reload s .V6 = [] := by
        unfold stop_segment
        simp [stop_family, stop_entry, family_running, Option.isNone_iff_eq_none.1 hn]
      rw [h4, h6]
      simp
  · intro hs
    rw [start_rv]
    cases family <;> simp [hs]
  · intro hs
    rw [stop_rv]
    cases family <;> simp [hs]

/-- C4, at a first-ever start: IPv4 is processed the same whether or not
ip6tables-restore can be executed. -/
theorem family_independence_witness :
    (fw3_family.V4 ≠ fw3_family.V6 ∧ agree_except .V6 all_ok v6_fails) ∧
    start_segment all_ok false fresh_state .V4 =
      start_segment v6_fails false fresh_state .V4 ∧
    (start v6_fails false fresh_state).rv = 0 :=
  have hagree : agree_except .V6 all_ok v6_fails :=
    ⟨rfl, rfl, fun cmd hc => by cases cmd <;> simp_all [all_ok, v6_fails, restore_cmd],
      fun f hf => by cases f <;> simp_all [all_ok, v6_fails]⟩
  have hne : fw3_family.V4 ≠ fw3_family.V6 := by decide
  ⟨⟨hne, hagree⟩,
   (family_independence all_ok v6_fails false false fresh_state .V4 .V6 hne hagree).1.1,
   (family_independence v6_fails all_ok false false fresh_state .V4 .V6 hne
      ⟨rfl, rfl, fun cmd hc => by cases cmd <;> simp_all [all_ok, v6_fails, restore_cmd],
        fun f hf => by cases f <;> simp_all [all_ok, v6_fails]⟩).2.2.2.2.1 rfl⟩

/-! ## C5: the status of start and stop -/

/-- C5: start returns 0 exactly when it populated at least one family, that
is when some family was neither skipped by the IPv6-disabled check nor
refused by the already-running guard and its sink opened; stop returns 0
exactly when it tore down at least one family, that is when for some family
the stop was complete or the family was marked active, and its sink opened.
Either status is 0 or 1, and a family counts as populated (torn down)
exactly when its iteration of the loop sets the status to 0. -/
theorem status_iff_some_family (o : Outcomes) (complete reload : Bool) (s : State) :
    ((start o reload s).rv = 0 ↔ ∃ f, start_populates o reload s f = true) ∧
    ((start o reload s).rv ≠ 0 ↔ ∀ f, start_populates o reload s f = false) ∧
    ((start o reload s).rv = 0 ∨ (start o reload s).rv = 1) ∧
    (∀ f, (start_family o reload f 1 (start_entry o reload s f)).rv = 0 ↔
      start_populates o reload s f = true) ∧
    ((stop o complete reload s).rv = 0 ↔ ∃ f, stop_tears_down o complete s f = true) ∧
    ((stop o complete reload s).rv ≠ 0 ↔ ∀ f, stop_tears_down o complete s f = false) ∧
    ((stop o complete reload s).rv = 0 ∨ (stop o complete reload s).rv = 1) ∧
    (∀ f, (stop_family o complete reload f 1 (stop_entry o complete reload s f)).rv = 0 ↔
      stop_tears_down o complete s f = true) := by
  refine ⟨?_, ?_, ?_, ?_, ?_, ?_, ?_, ?_⟩
  · rw [start_rv]
    constructor
    · intro h
      cases h4 : start_populates o reload s .V4
      · cases h6 : start_populates o reload s .V6
        · simp [h4, h6] at h
        · exact ⟨.V6, h6⟩
      · exact ⟨.V4, h4⟩
    · rintro ⟨f, hf⟩
      cases f <;> simp [hf]
  · rw [start_rv]
    constructor
    · intro h f
      cases h4 : start_populates o reload s .V4 <;>
        cases h6 : start_populates o reload s .V6 <;> simp [h4, h6] at h
      cases f
      · exact h4
      · exact h6
    · intro h
      simp [h .V4, h .V6]
  · rw [start_rv]
    split
    · exact Or.inl rfl
    · exact Or.inr rfl
  · intro f
    rw [start_family_rv, start_populates_entry]
    cases start_populates o reload s f <;> simp
  · rw [stop_rv]
    constructor
    · intro h
      cases h4 : stop_tears_down o complete s .V4
      · cases h6 : stop_tears_down o complete s .V6
        · simp [h4, h6] at h
        · exact ⟨.V6, h6⟩
      · exact ⟨.V4, h4⟩
    · rintro ⟨f, hf⟩
      cases f <;> simp [hf]
  · rw [stop_rv]
    constructor
    · intro h f
      cases h4 : stop_tears_down o complete s .V4 <;>
        cases h6 : stop_tears_down o complete s .V6 <;> simp [h4, h6] at h
      cases f
      · exact h4
      · exact h6
    · intro h
      simp [h .V4, h .V6]
  · rw [stop_rv]
    split
    · exact Or.inl rfl
    · exact Or.inr rfl
  · intro f
    rw [stop_family_rv, stop_tears_down_entry]
    cases stop_tears_down o complete s f <;> simp

/-! ## What start and stop leave of the rest of the state -/

theorem start_disable_ipv6 (o : Outcomes) (reload : Bool) (s : State) :
    (start o reload s).st.cfg_state.defaults.disable_ipv6 =
      s.cfg_state.defaults.disable_ipv6 := by
  have hl : (start_loop o reload families 1 s).st.cfg_state.defaults.disable_ipv6 =
      s.cfg_state.defaults.disable_ipv6 := by
    rw [start_loop_st]
    split
    · rw [family_set_both_disable_ipv6, start_entry_disable_ipv6]
    · rw [start_entry_disable_ipv6]
  rcases start_st_cases o reload s with h | h <;> rw [h] <;> exact hl

theorem start_isSome (o : Outcomes) (reload : Bool) (s : State) :
    (start o reload s).st.run_state.isSome = s.run_state.isSome := by
  have hl : (start_loop o reload families 1 s).st.run_state.isSome =
      s.run_state.isSome := by
    rw [start_loop_st]
    split
    · rw [family_set_both_isSome, start_entry_isSome]
    · rw [start_entry_isSome]
  rcases start_st_cases o reload s with h | h <;> rw [h] <;> exact hl

theorem start_print_rules (o : Outcomes) (reload : Bool) (s : State) :
    (start o reload s).st.print_rules = s.print_rules := by
  have hl : (start_loop o reload families 1 s).st.print_rules = s.print_rules := by
    rw [start_loop_st]
    split
    · rw [family_set_both_print_rules, start_entry_print_rules]
    · rw [start_entry_print_rules]
  rcases start_st_cases o reload s with h | h <;> rw [h] <;> exact hl

theorem stop_disable_ipv6 (o : Outcomes) (complete reload : Bool) (s : State) :
    (stop o complete reload s).st.cfg_state.defaults.disable_ipv6 =
      s.cfg_state.defaults.disable_ipv6 := by
  have hl : (stop_loop o complete reload families 1 s).st.cfg_state.defaults.disable_ipv6 =
      s.cfg_state.defaults.disable_ipv6 := by
    rw [stop_loop_st]
    split
    · rw [family_set_both_disable_ipv6, stop_entry_disable_ipv6]
    · rw [stop_entry_disable_ipv6]
  rcases stop_st_cases o complete reload s with h | h <;> rw [h] <;> exact hl

theorem stop_isSome (o : Outcomes) (complete reload : Bool) (s : State) :
    (stop o complete reload s).st.run_state.isSome = s.run_state.isSome := by
  have hl : (stop_loop o complete reload families 1 s).st.run_state.isSome =
      s.run_state.isSome := by
    rw [stop_loop_st]
    split
    · rw [family_set_both_isSome, stop_entry_isSome]
    · rw [stop_entry_isSome]
  rcases stop_st_cases o complete reload s with h | h <;> rw [h] <;> exact hl

theorem stop_print_rules (o : Outcomes) (complete reload : Bool) (s : State) :
    (stop o complete reload s).st.print_rules = s.print_rules := by
  have hl : (stop_loop o complete reload families 1 s).st.print_rules = s.print_rules := by
    rw [stop_loop_st]
    split
    · rw [family_set_both_print_rules, stop_entry_print_rules]
    · rw [stop_entry_print_rules]
  rcases stop_st_cases o complete reload s with h | h <;> rw [h] <;> exact hl

/-- A stop that succeeds with an active Snapshot persists the bitmap of the
active Snapshot as the loop left it. -/
theorem stop_persisted (o : Outcomes) (complete reload : Bool) (s : State)
    (h0 : (stop o complete reload s).rv = 0) (hs : s.run_state.isSome = true) :
    (stop o complete reload s).st.persisted =
      snapshot_flags (stop o complete reload s).st .run := by
  have hni := stop_not_idle complete s (Or.inr hs)
  have hrv : (stop_loop o complete reload families 1 s).rv = 0 := by
    rw [stop_loop_rv]
    rw [stop_rv] at h0
    exact h0
  have hsome : (stop_loop o complete reload families 1 s).st.run_state.isSome = true := by
    rw [stop_loop_st]
    split
    · rw [family_set_both_isSome, stop_entry_isSome]
      exact hs
    · rw [stop_entry_isSome]
      exact hs
  have hst : (stop o complete reload s).st =
      fw3_write_statefile (stop_loop o complete reload families 1 s).st .run := by
    unfold stop
    rw [hni]
    simp [hrv, hsome]
  rw [hst]
  rfl

theorem flags_of_bits (flags : fw3_flags) (h4 : has_flag flags .V4 = false)
    (h6 : has_flag flags .V6 = false) : flags = { v4 := false, v6 := false } := by
  cases flags
  simp only [has_flag] at h4 h6
  simp [h4, h6]

theorem snapshot_flags_run (s : State) (hs : s.run_state.isSome = true)
    (h4 : family_running s .V4 = false) (h6 : family_running s .V6 = false) :
    snapshot_flags s .run = some { v4 := false, v6 := false } := by
  cases hr : s.run_state with
  | none => simp [hr] at hs
  | some r =>
    simp only [family_running, hr] at h4 h6
    simp [snapshot_flags, hr, flags_of_bits r.defaults.flags h4 h6]

/-! ## Reload mode never warns -/

theorem restore_pipe_no_warning (o : Outcomes) (s : State) (g : fw3_family)
    (silent : Bool) (f : fw3_family) :
    Event.warn_started f ∉ (restore_pipe o s g silent).2 := by
  unfold restore_pipe
  by_cases hp : s.print_rules = true
  · simp [hp]
  · by_cases hc : o.command_pipe (restore_cmd g) = true <;> simp [hp, hc]

theorem start_tables_no_warning (o : Outcomes) (reload : Bool) (g : fw3_family)
    (f : fw3_family) (ts : List fw3_table) :
    Event.warn_started f ∉ start_tables o reload g ts := by
  induction ts with
  | nil => simp [start_tables]
  | cons t rest ih =>
    by_cases ht : o.has_table (g == .V6) t = true <;>
      simp [start_tables, ht, start_table, ih]

theorem start_family_reload_no_warning (o : Outcomes) (s : State) (g : fw3_family)
    (rv : Int) (f : fw3_family) :
    Event.warn_started f ∉ (start_family o true g rv s).ev := by
  unfold start_family
  by_cases h1 : (g == .V6 && s.cfg_state.defaults.disable_ipv6) = true
  · simp [h1]
  · cases h3 : (restore_pipe o s g false).1
    · simp [h1, h3, restore_pipe_no_warning]
    · simp [h1, h3, restore_pipe_no_warning, start_tables_no_warning]

theorem start_reload_no_warning (o : Outcomes) (s : State) (f : fw3_family) :
    Event.warn_started f ∉ (start o true s).ev := by
  rw [start_ev]
  simp only [List.mem_append, not_or]
  refine ⟨⟨⟨?_, ?_⟩, ?_⟩, ?_⟩
  · simp [start_ipsets]
  · exact start_family_reload_no_warning o s .V4 1 f
  · exact start_family_reload_no_warning o _ .V6 1 f
  · unfold start_finish
    split
    · split <;> simp
    · simp

theorem stop_rv_beq (o : Outcomes) (complete reload : Bool) (s : State) :
    ((stop o complete reload s).rv == 0) =
      (stop_tears_down o complete s .V4 || stop_tears_down o complete s .V6) := by
  rw [stop_rv]
  cases stop_tears_down o complete s .V4 <;> cases stop_tears_down o complete s .V6 <;> rfl

/-! ## C6: reload -/

/-- C6 (as stated, refuted): IPv4 is marked active, but iptables-restore
cannot be executed, so the stop of reload tears nothing down and returns 1;
reload then runs start in fresh mode, whose already-running guard refuses
IPv4 (the warning in the trace) instead of repopulating it. -/
theorem reload_fresh_despite_active :
    family_running running_state .V4 = true ∧
    main stuck_env none .reload running_state =
      ⟨1, running_state,
       [Event.lock true,
        Event.hotplug_zones .run false,
        Event.command_pipe true .iptables_restore false,
        Event.warn_exec .iptables_restore,
        Event.command_pipe false .ipset false,
        Event.warn_started .V4,
        Event.command_pipe false .ip6tables_restore false,
        Event.warn_exec .ip6tables_restore,
        Event.unlock]⟩ ∧
    (stop stuck_env.first false true running_state).rv = 1 ∧
    (main stuck_env none .reload running_state).ev =
      [Event.lock true] ++ (stop stuck_env.first false true running_state).ev ++
      (start stuck_env.second false running_state).ev ++ [Event.unlock] := by
  refine ⟨rfl, rfl, rfl, rfl⟩

/-- C6 (amended): under the lock, reload runs stop(complete=false,
reload=true) first and start next, and its status is that of start.  start
runs in reload mode exactly when that stop tore down a family: never when no
family is marked active, and always when some family is marked active and its
teardown sink opens.  In reload mode the already-running guard refuses no
family: a family is populated exactly when it is not IPv6 disabled by policy
and its sink opens. -/
theorem reload_mode (env : Env) (use_family : Option fw3_family) (s : State)
    (hl : env.lock = true) :
    (main env use_family .reload s).ev =
      [Event.lock true] ++ (stop env.first false true s).ev ++
      (start env.second
        (stop_tears_down env.first false s .V4 || stop_tears_down env.first false s .V6)
        (stop env.first false true s).st).ev ++ [Event.unlock] ∧
    (main env use_family .reload s).rv =
      (start env.second
        (stop_tears_down env.first false s .V4 || stop_tears_down env.first false s .V6)
        (stop env.first false true s).st).rv ∧
    ((∀ f, family_running s f = false) →
      (stop_tears_down env.first false s .V4 ||
        stop_tears_down env.first false s .V6) = false) ∧
    (∀ f, family_running s f = true → (restore_pipe env.first s f true).1 = true →
      (stop_tears_down env.first false s .V4 ||
        stop_tears_down env.first false s .V6) = true) ∧
    (∀ o t f, Event.warn_started f ∉ (start o true t).ev ∧
      start_populates o true t f =
        (!(f == .V6 && t.cfg_state.defaults.disable_ipv6) &&
          (restore_pipe o t f false).1)) := by
  refine ⟨?_, ?_, ?_, ?_, ?_⟩
  · simp only [main, with_lock, hl, if_true, reload_body, stop_rv_beq, List.append_assoc]
  · simp only [main, with_lock, hl, if_true, reload_body, stop_rv_beq]
  · intro h
    simp [stop_tears_down, h]
  · intro f hf hp
    cases f <;> simp [stop_tears_down, hf, hp]
  · intro o t f
    refine ⟨start_reload_no_warning o t f, ?_⟩
    simp [start_populates]

/-- C6 (amended), at a running IPv4 firewall with every sink opening:
reload runs start in reload mode. -/
theorem reload_mode_witness :
    good_env.lock = true ∧
    (main good_env none .reload running_state).ev =
      [Event.lock true] ++ (stop good_env.first false true running_state).ev ++
      (start good_env.second true (stop good_env.first false true running_state).st).ev ++
      [Event.unlock] :=
  ⟨rfl, (reload_mode good_env none running_state rfl).1⟩

/-! ## C7: restart -/

/-- C7 (as stated, refuted): every table is present, but neither restore
command can be executed, so the stop of restart flushes no table of either
family: the trace has no table header and no flush-all call. -/
theorem restart_without_flush :
    (∀ v6 table, stuck_env.first.has_table v6 table = true) ∧
    main stuck_env none .restart running_state =
      ⟨1, running_state,
       [Event.lock true,
        Event.hotplug_zones .run false,
        Event.command_pipe true .iptables_restore false,
        Event.warn_exec .iptables_restore,
        Event.command_pipe true .ip6tables_restore false,
        Event.warn_exec .ip6tables_restore,
        Event.command_pipe false .ipset false,
        Event.fopen_conntrack true,
        Event.info_conntrack,
        Event.fwrite_conntrack,
        Event.fclose_conntrack,
        Event.command_pipe false .ipset false,
        Event.warn_started .V4,
        Event.command_pipe false .ip6tables_restore false,
        Event.warn_exec .ip6tables_restore,
        Event.unlock]⟩ := by
  refine ⟨fun _ _ => rfl, rfl⟩

/-- C7 (amended): under the lock and for every state, restart runs
stop(complete=true, reload=false) first and start(reload=false) next, every
call of the stop preceding every call of the start, and its status is that of
start.  Whatever the bitmaps say, that stop tears down every family whose
restore sink opens, and only those: for such a family its trace holds the sink
open, then header, flush-all, COMMIT for every present table, then the
close. -/
theorem restart_flush_then_start (env : Env) (use_family : Option fw3_family)
    (s : State) (hl : env.lock = true) :
    (main env use_family .restart s).ev =
      [Event.lock true] ++ (stop env.first true false s).ev ++
      (start env.second false (stop env.first true false s).st).ev ++ [Event.unlock] ∧
    (main env use_family .restart s).rv =
      (start env.second false (stop env.first true false s).st).rv ∧
    (∀ f, stop_tears_down env.first true s f = (restore_pipe env.first s f true).1) ∧
    (∀ f, (restore_pipe env.first s f true).1 = true →
      ∃ pre post,
        (stop env.first true false s).ev =
          pre ++
          ((if s.print_rules then [Event.stdout_pipe true]
            else [Event.command_pipe true (restore_cmd f) true]) ++
           (present_tables env.first f).flatMap
            (fun table =>
              [Event.info_table .Flushing f table,
               Event.pr_table table,
               Event.flush_all table,
               Event.pr_commit]) ++
           [Event.command_close]) ++
          post ∧
        (∀ e ∈ pre, e.mentions f = false) ∧
        (∀ e ∈ post, e.mentions f = false)) := by
  refine ⟨?_, ?_, ?_, ?_⟩
  · simp only [main, with_lock, hl, if_true, restart_body, List.append_assoc]
  · simp only [main, with_lock, hl, if_true, restart_body]
  · intro f
    simp [stop_tears_down]
  · intro f hf
    have ht : stop_tears_down env.first true s f = true := by
      simp [stop_tears_down, hf]
    obtain ⟨pre, post, h1, h2, h3⟩ := stop_family_run env.first true false s f ht
    rw [spec_teardown_family_eq] at h1
    exact ⟨pre, post, h1, h2, h3⟩

/-- C7 (amended), at a first-ever run with every sink opening. -/
theorem restart_flush_then_start_witness :
    good_env.lock = true ∧
    (main good_env none .restart fresh_state).rv =
      (start good_env.second false (stop good_env.first true false fresh_state).st).rv :=
  ⟨rfl, (restart_flush_then_start good_env none fresh_state rfl).2.1⟩

/-! ## C8: the bits start sets -/

/-- C8 (as stated, refuted): on a first-ever start there is no active
Snapshot; start populates IPv4 and returns 0, yet no active Snapshot exists
afterwards, IPv4 is not found running, and a stop(complete=false) issued next
in the same process only warns and returns 1. -/
theorem first_start_leaves_no_active_snapshot :
    start_populates all_ok false fresh_state .V4 = true ∧
    (start all_ok false fresh_state).rv = 0 ∧
    (start all_ok false fresh_state).st.run_state = none ∧
    family_running (start all_ok false fresh_state).st .V4 = false ∧
    stop all_ok false false (start all_ok false fresh_state).st =
      ⟨1, (start all_ok false fresh_state).st, [Event.warn_stopped]⟩ := by
  refine ⟨rfl, rfl, rfl, rfl, rfl⟩

/-- C8 (amended): after start returns, every family it populated is marked
active in the desired Snapshot, and in the active Snapshot when one exists:
then a stop(complete=false) issued next finds the family active and tears it
down when its sink opens.  start never creates an active Snapshot: with none
before there is none after, and no family is found running. -/
theorem start_marks_active (o : Outcomes) (reload : Bool) (s : State)
    (f : fw3_family) (h : start_populates o reload s f = true) :
    has_flag (start o reload s).st.cfg_state.defaults.flags f = true ∧
    (start o reload s).st.run_state.isSome = s.run_state.isSome ∧
    family_running (start o reload s).st f = s.run_state.isSome ∧
    (∀ o2, stop_tears_down o2 false (start o reload s).st f =
      (s.run_state.isSome && (restore_pipe o2 (start o reload s).st f true).1)) := by
  have hr : family_running (start o reload s).st f = s.run_state.isSome := by
    rw [start_running, h]
    simp
  refine ⟨?_, start_isSome o reload s, hr, ?_⟩
  · rw [start_cfg_flag, h]
    rfl
  · intro o2
    simp [stop_tears_down, hr]

/-- C8 (amended), at a stopped firewall whose state file exists. -/
theorem start_marks_active_witness :
    start_populates all_ok false stopped_state .V4 = true ∧
    has_flag (start all_ok false stopped_state).st.cfg_state.defaults.flags .V4 = true ∧
    family_running (start all_ok false stopped_state).st .V4 =
      stopped_state.run_state.isSome :=
  ⟨rfl, (start_marks_active all_ok false stopped_state .V4 rfl).1,
    (start_marks_active all_ok false stopped_state .V4 rfl).2.2.1⟩

/-! ## C9: start followed by stop -/

/-- C9 (as stated, refuted): with no persisted state and every sink opening,
start returns 0 and persists both families as active, but the stop that
follows finds no active Snapshot: it returns 1, tears nothing down, and the
persisted bitmap still shows both families active. -/
theorem start_stop_without_state_file :
    fresh_state.run_state = none ∧
    (start all_ok false fresh_state).rv = 0 ∧
    start_populates all_ok false fresh_state .V4 = true ∧
    (stop all_ok false false (start all_ok false fresh_state).st).rv = 1 ∧
    (stop all_ok false false (start all_ok false fresh_state).st).ev =
      [Event.warn_stopped] ∧
    (stop all_ok false false (start all_ok false fresh_state).st).st.persisted =
      some { v4 := true, v6 := true } := by
  refine ⟨rfl, rfl, rfl, rfl, rfl, rfl⟩

/-- C9 (amended): let an active Snapshot exist with no family marked active,
and let every sink open in both calls.  Then start(reload=false) returns 0,
the stop(complete=false, reload=false) that follows returns 0 and tears down
exactly the families start populated (IPv4, and IPv6 unless disabled by
policy), no family is marked active in either Snapshot afterwards, and the
bitmap persisted last has both families inactive. -/
theorem start_then_stop (o1 o2 : Outcomes) (s : State)
    (hs : s.run_state.isSome = true)
    (h4 : family_running s .V4 = false) (h6 : family_running s .V6 = false)
    (ho1 : sinks_open o1) (ho2 : sinks_open o2) :
    (start o1 false s).rv = 0 ∧
    (stop o2 false false (start o1 false s).st).rv = 0 ∧
    (∀ f, stop_tears_down o2 false (start o1 false s).st f =
      start_populates o1 false s f) ∧
    (∀ f, start_populates o1 false s f =
      !(f == .V6 && s.cfg_state.defaults.disable_ipv6)) ∧
    (∀ f, family_running (stop o2 false false (start o1 false s).st).st f = false ∧
      has_flag (stop o2 false false (start o1 false s).st).st.cfg_state.defaults.flags f =
        (!start_populates o1 false s f && has_flag s.cfg_state.defaults.flags f)) ∧
    (stop o2 false false (start o1 false s).st).st.persisted =
      some { v4 := false, v6 := false } := by
  have hp1 : ∀ t f silent, (restore_pipe o1 t f silent).1 = true := by
    intro t f silent
    rw [restore_pipe_fst, ho1.1, ho1.2]
    simp
  have hp2 : ∀ t f silent, (restore_pipe o2 t f silent).1 = true := by
    intro t f silent
    rw [restore_pipe_fst, ho2.1, ho2.2]
    simp
  have hpop : ∀ f, start_populates o1 false s f =
      !(f == .V6 && s.cfg_state.defaults.disable_ipv6) := by
    intro f
    cases f <;> simp [start_populates, h4, h6, hp1]
  have hrun : ∀ f, family_running (start o1 false s).st f = start_populates o1 false s f := by
    intro f
    rw [start_running, hs]
    cases f <;> simp [h4, h6]
  have htd : ∀ f, stop_tears_down o2 false (start o1 false s).st f =
      start_populates o1 false s f := by
    intro f
    simp [stop_tears_down, hrun, hp2]
  have hrv1 : (start o1 false s).rv = 0 := by
    rw [start_rv, hpop .V4]
    rfl
  have hrv2 : (stop o2 false false (start o1 false s).st).rv = 0 := by
    rw [stop_rv, htd .V4, hpop .V4]
    rfl
  have hs1 : (start o1 false s).st.run_state.isSome = true := by
    rw [start_isSome]
    exact hs
  have hoff : ∀ f, family_running (stop o2 false false (start o1 false s).st).st f = false := by
    intro f
    rw [stop_running, htd, hrun]
    cases start_populates o1 false s f <;> rfl
  refine ⟨hrv1, hrv2, htd, hpop, ?_, ?_⟩
  · intro f
    refine ⟨hoff f, ?_⟩
    rw [stop_cfg_flag, htd, start_cfg_flag]
    cases start_populates o1 false s f <;> simp
  · rw [stop_persisted o2 false false _ hrv2 hs1]
    apply snapshot_flags_run
    · rw [stop_isSome]
      exact hs1
    · exact hoff .V4
    · exact hoff .V6

/-- C9 (amended), at a stopped firewall whose state file exists. -/
theorem start_then_stop_witness :
    (stopped_state.run_state.isSome = true ∧
     family_running stopped_state .V4 = false ∧
     family_running stopped_state .V6 = false ∧
     sinks_open all_ok) ∧
    (start all_ok false stopped_state).rv = 0 ∧
    (stop all_ok false false (start all_ok false stopped_state).st).rv = 0 ∧
    (stop all_ok false false (start all_ok false stopped_state).st).st.persisted =
      some { v4 := false, v6 := false } :=
  have hopen : sinks_open all_ok := ⟨fun _ => rfl, fun _ => rfl⟩
  ⟨⟨rfl, rfl, rfl, hopen⟩,
   (start_then_stop all_ok all_ok stopped_state rfl rfl rfl hopen hopen).1,
   (start_then_stop all_ok all_ok stopped_state rfl rfl rfl hopen hopen).2.1,
   (start_then_stop all_ok all_ok stopped_state rfl rfl rfl hopen hopen).2.2.2.2.2⟩

/-! ## C10: the IPv6 bit under the disable-IPv6 policy -/

theorem v6_not_set_refl (s : State) : v6_not_set s s :=
  ⟨rfl, rfl, fun h => h, fun h => h⟩

theorem v6_not_set_trans (s t u : State) (h1 : v6_not_set s t) (h2 : v6_not_set t u) :
    v6_not_set s u :=
  ⟨h2.1.trans h1.1, h2.2.1.trans h1.2.1, fun h => h2.2.2.1 (h1.2.2.1 h),
    fun h => h2.2.2.2 (h1.2.2.2 h)⟩

theorem start_v6_unchanged (o : Outcomes) (reload : Bool) (s : State)
    (hd : s.cfg_state.defaults.disable_ipv6 = true) :
    has_flag (start o reload s).st.cfg_state.defaults.flags .V6 =
      has_flag s.cfg_state.defaults.flags .V6 ∧
    family_running (start o reload s).st .V6 = family_running s .V6 := by
  have hp : start_populates o reload s .V6 = false := by
    simp [start_populates, hd]
  constructor
  · rw [start_cfg_flag, hp]
    rfl
  · rw [start_running, hp]
    simp [isSome_and_running]

theorem start_v6_not_set (o : Outcomes) (reload : Bool) (s : State)
    (hd : s.cfg_state.defaults.disable_ipv6 = true) :
    v6_not_set s (start o reload s).st := by
  obtain ⟨h1, h2⟩ := start_v6_unchanged o reload s hd
  exact ⟨start_disable_ipv6 o reload s, start_isSome o reload s,
    fun h => h1.trans h, fun h => h2.trans h⟩

theorem stop_v6_not_set (o : Outcomes) (complete reload : Bool) (s : State) :
    v6_not_set s (stop o complete reload s).st := by
  refine ⟨stop_disable_ipv6 o complete reload s, stop_isSome o complete reload s, ?_, ?_⟩
  · intro h
    rw [stop_cfg_flag, h]
    simp
  · intro h
    rw [stop_running, h]
    simp

theorem with_lock_st (env : Env) (s : State) (body : State → Run) :
    (with_lock env s body).st = s ∨ (with_lock env s body).st = (body s).st := by
  unfold with_lock
  split
  · exact Or.inr rfl
  · exact Or.inl rfl

theorem main_v6_not_set (env : Env) (use_family : Option fw3_family) (cmd : Command)
    (s : State) (hd : s.cfg_state.defaults.disable_ipv6 = true) :
    v6_not_set s (main env use_family cmd s).st := by
  cases cmd with
  | print =>
    exact start_v6_not_set env.first false
      { s with cfg_state := { s.cfg_state with disable_ipsets := true }, print_rules := true } hd
  | start =>
    rcases with_lock_st env s (start env.first false) with h | h
    · simp only [main, h]
      exact v6_not_set_refl s
    · simp only [main, h]
      exact start_v6_not_set env.first false s hd
  | stop =>
    rcases with_lock_st env s (stop env.first false false) with h | h
    · simp only [main, h]
      exact v6_not_set_refl s
    · simp only [main, h]
      exact stop_v6_not_set env.first false false s
  | flush =>
    rcases with_lock_st env s (stop env.first true false) with h | h
    · simp only [main, h]
      exact v6_not_set_refl s
    · simp only [main, h]
      exact stop_v6_not_set env.first true false s
  | restart =>
    rcases with_lock_st env s (restart_body env) with h | h
    · simp only [main, h]
      exact v6_not_set_refl s
    · simp only [main, h, restart_body]
      have h1 := stop_v6_not_set env.first true false s
      exact v6_not_set_trans _ _ _ h1
        (start_v6_not_set env.second false _ (h1.1.trans hd))
  | reload =>
    rcases with_lock_st env s (reload_body env) with h | h
    · simp only [main, h]
      exact v6_not_set_refl s
    · simp only [main, h, reload_body]
      have h1 := stop_v6_not_set env.first false true s
      exact v6_not_set_trans _ _ _ h1
        (start_v6_not_set env.second _ _ (h1.1.trans hd))
  | network net => exact v6_not_set_refl s
  | device dev => exact v6_not_set_refl s
  | other => exact v6_not_set_refl s

/-- C10 (as stated, refuted): IPv6 is disabled by policy and the active
Snapshot still records both families as active.  print populates IPv4,
returns 0 and skips IPv6 without touching its bit; start refuses IPv4, skips
IPv6 and returns 1.  When either command returns, the IPv6 bit is still set
in the active Snapshot. -/
theorem stale_ipv6_bit_survives :
    v6_stale_state.cfg_state.defaults.disable_ipv6 = true ∧
    family_running v6_stale_state .V6 = true ∧
    (main good_env none .print v6_stale_state).rv = 0 ∧
    family_running (main good_env none .print v6_stale_state).st .V6 = true ∧
    (main good_env none .start v6_stale_state).rv = 1 ∧
    family_running (main good_env none .start v6_stale_state).st .V6 = true := by
  refine ⟨rfl, rfl, ?_, ?_, ?_, ?_⟩ <;> decide

/-- C10 (amended): while the desired configuration disables IPv6, no command
turns the IPv6 bit on: when the command returns the policy is still set, no
Snapshot was created or dropped, and in each Snapshot the IPv6 bit is false
if it was false before the command.  start and print leave the IPv6 bit of
both Snapshots exactly as it was, also when it was recorded as active. -/
theorem ipv6_bit_never_set (env : Env) (use_family : Option fw3_family)
    (cmd : Command) (s : State) (hd : s.cfg_state.defaults.disable_ipv6 = true) :
    (main env use_family cmd s).st.cfg_state.defaults.disable_ipv6 = true ∧
    (main env use_family cmd s).st.run_state.isSome = s.run_state.isSome ∧
    (has_flag s.cfg_state.defaults.flags .V6 = false →
      has_flag (main env use_family cmd s).st.cfg_state.defaults.flags .V6 = false) ∧
    (family_running s .V6 = false →
      family_running (main env use_family cmd s).st .V6 = false) ∧
    (cmd = .start ∨ cmd = .print →
      has_flag (main env use_family cmd s).st.cfg_state.defaults.flags .V6 =
        has_flag s.cfg_state.defaults.flags .V6 ∧
      family_running (main env use_family cmd s).st .V6 = family_running s .V6) := by
  obtain ⟨h1, h2, h3, h4⟩ := main_v6_not_set env use_family cmd s hd
  refine ⟨h1.trans hd, h2, h3, h4, ?_⟩
  rintro (hc | hc)
  · subst hc
    rcases with_lock_st env s (start env.first false) with h | h
    · simp [main, h]
    · simp only [main, h]
      exact start_v6_unchanged env.first false s hd
  · subst hc
    exact start_v6_unchanged env.first false
      { s with cfg_state := { s.cfg_state with disable_ipsets := true }, print_rules := true } hd

/-- C10 (amended), at a stopped firewall with IPv6 disabled by policy. -/
theorem ipv6_bit_never_set_witness :
    v6_stale_state.cfg_state.defaults.disable_ipv6 = true ∧
    (main good_env none .stop v6_stale_state).st.cfg_state.defaults.disable_ipv6 = true ∧
    (main good_env none .stop v6_stale_state).st.run_state.isSome =
      v6_stale_state.run_state.isSome :=
  ⟨rfl, (ipv6_bit_never_set good_env none .stop v6_stale_state rfl).1,
    (ipv6_bit_never_set good_env none .stop v6_stale_state rfl).2.1⟩

/-! ## The calls start and stop can make -/

theorem restore_pipe_mem (o : Outcomes) (s : State) (f : fw3_family) (silent : Bool) :
    ∀ e ∈ (restore_pipe o s f silent).2,
      e ∈ (if s.print_rules then [Event.stdout_pipe true, Event.stdout_pipe false]
           else [Event.command_pipe silent (restore_cmd f) true,
                 Event.command_pipe silent (restore_cmd f) false,
                 Event.warn_exec (restore_cmd f)]) := by
  intro e he
  unfold restore_pipe at he
  by_cases hp : s.print_rules = true
  · cases hb : o.stdout_pipe f <;> simp [hp, hb] at he ⊢ <;> simp [he]
  · by_cases hc : o.command_pipe (restore_cmd f) = true
    · simp [hp, hc] at he ⊢
      simp [he]
    · simp [hp, hc] at he ⊢
      rcases he with he | he <;> simp [he]

theorem start_tables_mem (o : Outcomes) (reload : Bool) (f : fw3_family)
    (ts : List fw3_table) :
    ∀ e ∈ start_tables o reload f ts, e ∈ ts.flatMap (start_table reload f) := by
  induction ts with
  | nil => intro e he; simp [start_tables] at he
  | cons t rest ih =>
    intro e he
    simp only [start_tables, List.mem_append] at he
    rw [List.flatMap_cons, List.mem_append]
    rcases he with he | he
    · by_cases ht : o.has_table (f == .V6) t = true
      · simp only [ht, Bool.not_true, Bool.false_eq_true, if_false] at he
        exact Or.inl he
      · simp [ht] at he
    · exact Or.inr (ih e he)

theorem start_family_mem (o : Outcomes) (reload : Bool) (f : fw3_family) (rv : Int)
    (s : State) :
    ∀ e ∈ (start_family o reload f rv s).ev,
      e ∈ start_family_alphabet s.print_rules reload f := by
  intro e he
  unfold start_family at he
  unfold start_family_alphabet
  by_cases h1 : (f == .V6 && s.cfg_state.defaults.disable_ipv6) = true
  · simp [h1] at he
  · by_cases h2 : (!s.print_rules && !reload && family_running s f) = true
    · simp only [h1, h2, if_true, if_false, List.mem_singleton, Bool.false_eq_true] at he
      have h3 : (!s.print_rules && !reload) = true := by
        simp only [Bool.and_eq_true] at h2 ⊢
        exact h2.1
      simp [h3, he]
    · cases h3 : (restore_pipe o s f false).1
      · simp only [h1, h2, h3, if_false, Bool.not_false, if_true, Bool.false_eq_true] at he
        have := restore_pipe_mem o s f false e he
        simp only [List.mem_append]
        exact Or.inl (Or.inl (Or.inr this))
      · simp only [h1, h2, h3, if_false, Bool.not_true, Bool.false_eq_true,
          List.mem_append] at he
        simp only [List.mem_append]
        rcases he with (he | he) | he
        · exact Or.inl (Or.inl (Or.inr (restore_pipe_mem o s f false e he)))
        · exact Or.inl (Or.inr (start_tables_mem o reload f tables e he))
        · exact Or.inr he

theorem start_body_eq (o : Outcomes) (reload : Bool) (s : State) :
    start_body o reload s =
      start_ipsets o reload s ++ (start_family o reload .V4 1 s).ev ++
      (start_family o reload .V6 1 (start_entry o reload s .V6)).ev := by
  simp only [start_body, start_loop, families, start_entry, List.append_nil,
    List.append_assoc]
  rw [start_family_ev_rv o reload _ .V6 _ 1]

theorem start_ev_body (o : Outcomes) (reload : Bool) (s : State) :
    (start o reload s).ev =
      start_body o reload s ++
      (start_finish reload (start_loop o reload families 1 s).rv
        (start_loop o reload families 1 s).st).ev := by
  rw [start_ev, start_body_eq]

theorem start_body_mem (o : Outcomes) (reload : Bool) (s : State) :
    ∀ e ∈ start_body o reload s, e ∈ start_body_alphabet s.print_rules reload := by
  intro e he
  rw [start_body_eq] at he
  simp only [List.mem_append] at he
  unfold start_body_alphabet
  simp only [families, List.flatMap_cons, List.flatMap_nil, List.append_nil, List.mem_append]
  rcases he with (he | he) | he
  · left
    unfold start_ipsets at he
    by_cases h1 : (!s.print_rules && !reload) = true
    · by_cases h2 : o.command_pipe .ipset = true
      · simp [h1, h2] at he ⊢
        rcases he with he | he | he <;> simp [he]
      · simp [h1, h2] at he ⊢
        simp [he]
    · simp [h1] at he
  · exact Or.inr (Or.inl (start_family_mem o reload .V4 1 s e he))
  · right
    right
    have := start_family_mem o reload .V6 1 _ e he
    rwa [start_entry_print_rules] at this

theorem stop_tables_mem (o : Outcomes) (s : State) (complete reload : Bool)
    (f : fw3_family) (ts : List fw3_table) :
    ∀ e ∈ stop_tables o s complete reload f ts,
      e ∈ ts.flatMap (fun table =>
        [Event.info_table (if complete then .Flushing else .Clearing) f table,
         Event.pr_table table] ++
        (if complete then [Event.flush_all table]
         else [Event.flush_rules .run f table reload false,
               Event.flush_zones .run f table reload false,
               Event.flush_rules .run f table reload true,
               Event.flush_zones .run f table reload true]) ++
        [Event.pr_commit]) := by
  induction ts with
  | nil => intro e he; simp [stop_tables] at he
  | cons t rest ih =>
    intro e he
    simp only [stop_tables, List.mem_append] at he
    rw [List.flatMap_cons, List.mem_append]
    rcases he with he | he
    · left
      by_cases ht : o.has_table (f == .V6) t = true
      · cases complete
        · cases hs : s.run_state.isSome
          · simp [ht, stop_table, hs] at he ⊢
            rcases he with he | he | he <;> simp [he]
          · simp [ht, stop_table, hs] at he ⊢
            rcases he with he | he | he | he | he | he | he <;> simp [he]
        · simp [ht, stop_table] at he ⊢
          rcases he with he | he | he | he <;> simp [he]
      · simp [ht] at he
    · exact Or.inr (ih e he)

theorem stop_family_mem (o : Outcomes) (complete reload : Bool) (f : fw3_family)
    (rv : Int) (s : State) :
    ∀ e ∈ (stop_family o complete reload f rv s).ev,
      e ∈ stop_family_alphabet s.print_rules complete reload f := by
  intro e he
  unfold stop_family at he
  unfold stop_family_alphabet
  simp only [List.mem_append]
  by_cases h1 : (!complete && !family_running s f) = true
  · simp [h1] at he
  · cases h3 : (restore_pipe o s f true).1
    · simp only [h1, h3, if_false, Bool.not_false, if_true, Bool.false_eq_true] at he
      exact Or.inl (Or.inl (restore_pipe_mem o s f true e he))
    · simp only [h1, h3, if_false, Bool.not_true, Bool.false_eq_true,
        List.mem_append] at he
      rcases he with (he | he) | he
      · exact Or.inl (Or.inl (restore_pipe_mem o s f true e he))
      · exact Or.inl (Or.inr (stop_tables_mem o s complete reload f tables e he))
      · exact Or.inr he

theorem stop_ev_body (o : Outcomes) (complete reload : Bool) (s : State) :
    (stop o complete reload s).ev =
      stop_body o complete reload s ++
      (if (stop o complete reload s).rv == 0 &&
          (stop o complete reload s).st.run_state.isSome
       then [Event.write_statefile .run] else []) := by
  unfold stop stop_body
  by_cases h0 : (!complete && s.run_state.isNone) = true
  · simp [h0]
  · rw [if_neg h0, if_neg h0]
    by_cases hc : ((stop_loop o complete reload families 1 s).rv == 0 &&
        (stop_loop o complete reload families 1 s).st.run_state.isSome) = true
    · simp only [hc, if_true]
      have : (fw3_write_statefile (stop_loop o complete reload families 1 s).st
          .run).run_state.isSome =
          (stop_loop o complete reload families 1 s).st.run_state.isSome := rfl
      rw [this, hc]
      rfl
    · simp only [hc, if_false, List.append_nil, Bool.false_eq_true]

theorem stop_body_mem (o : Outcomes) (complete reload : Bool) (s : State) :
    ∀ e ∈ stop_body o complete reload s,
      e ∈ stop_body_alphabet s.print_rules complete reload := by
  intro e he
  unfold stop_body at he
  unfold stop_body_alphabet
  simp only [families, List.flatMap_cons, List.flatMap_nil, List.append_nil,
    List.mem_append]
  by_cases h0 : (!complete && s.run_state.isNone) = true
  · rw [if_pos h0] at he
    cases reload <;> simp at he
    simp [he]
  · rw [if_neg h0, stop_loop_ev] at he
    simp only [List.mem_append] at he
    rcases he with ((he | he | he) | he) | he
    · left; left; left
      unfold stop_hotplug at he
      split at he
      · simp at he
        simp [he]
      · simp at he
    · left; left; right; left
      exact stop_family_mem o complete reload .V4 1 s e he
    · left; left; right; right
      have := stop_family_mem o complete reload .V6 1 _ e he
      rwa [stop_entry_print_rules] at this
    · left; right
      unfold stop_ipsets at he
      cases reload
      · cases hs : (stop_loop o complete false families 1 s).st.run_state.isSome
        · simp [hs] at he
        · cases hc : o.command_pipe .ipset
          · simp [hs, hc] at he ⊢
            simp [he]
          · simp [hs, hc] at he ⊢
            rcases he with he | he | he <;> simp [he]
      · simp at he
    · right
      unfold stop_conntrack at he
      cases complete
      · simp at he
      · cases hk : o.conntrack
        · simp [hk] at he ⊢
          simp [he]
        · simp [hk] at he ⊢
          rcases he with he | he | he | he <;> simp [he]

/-! ## A command that fails leaves the state alone -/

theorem stop_st_of_fail (o : Outcomes) (complete reload : Bool) (s : State)
    (h : (stop o complete reload s).rv ≠ 0) : (stop o complete reload s).st = s := by
  have h4 : stop_tears_down o complete s .V4 = false := by
    cases h4 : stop_tears_down o complete s .V4
    · rfl
    · rw [stop_rv, h4] at h
      simp at h
  have h6 : stop_tears_down o complete s .V6 = false := by
    cases h6 : stop_tears_down o complete s .V6
    · rfl
    · rw [stop_rv, h6] at h
      simp at h
  have hl : (stop_loop o complete reload families 1 s).st = s := by
    rw [stop_loop_st, h6]
    simp [stop_entry, stop_family_st, h4]
  have hrv : (stop_loop o complete reload families 1 s).rv = 1 := by
    rw [stop_loop_rv, h4, h6]
    rfl
  unfold stop
  by_cases h0 : (!complete && s.run_state.isNone) = true
  · rw [if_pos h0]
  · rw [if_neg h0]
    simp [hrv, hl]

theorem start_st_of_fail (o : Outcomes) (reload : Bool) (s : State)
    (h : (start o reload s).rv ≠ 0) : (start o reload s).st = s := by
  have h4 : start_populates o reload s .V4 = false := by
    cases h4 : start_populates o reload s .V4
    · rfl
    · rw [start_rv, h4] at h
      simp at h
  have h6 : start_populates o reload s .V6 = false := by
    cases h6 : start_populates o reload s .V6
    · rfl
    · rw [start_rv, h6] at h
      simp at h
  have hl : (start_loop o reload families 1 s).st = s := by
    rw [start_loop_st, h6]
    simp [start_entry, start_family_st, h4]
  have hrv : (start_loop o reload families 1 s).rv = 1 := by
    rw [start_loop_rv, h4, h6]
    rfl
  simp [start, start_finish, hrv, hl]

/-! ## C11: the already-running guard of start -/

theorem start_body_no_warning (p r : Bool) (h : r = true ∨ p = true) :
    ∀ e ∈ start_body_alphabet p r, e.is_started_warning = false := by
  cases p <;> cases r <;> simp at h <;> decide

theorem start_no_warning (o : Outcomes) (reload : Bool) (s : State)
    (h : reload = true ∨ s.print_rules = true) (g : fw3_family) :
    Event.warn_started g ∉ (start o reload s).ev := by
  intro hm
  rw [start_ev_body, List.mem_append] at hm
  rcases hm with hm | hm
  · have := start_body_no_warning s.print_rules reload h _ (start_body_mem o reload s _ hm)
    simp [Event.is_started_warning] at this
  · unfold start_finish at hm
    split at hm
    · split at hm <;> simp at hm
    · simp at hm

theorem start_family_refused (o : Outcomes) (f : fw3_family) (rv : Int) (t : State)
    (hp : t.print_rules = false) (hf : family_running t f = true) :
    (start_family o false f rv t).ev =
      if f = .V6 ∧ t.cfg_state.defaults.disable_ipv6 = true then []
      else [Event.warn_started f] := by
  unfold start_family
  by_cases h1 : (f == .V6 && t.cfg_state.defaults.disable_ipv6) = true
  · have h1b : f = .V6 ∧ t.cfg_state.defaults.disable_ipv6 = true := by
      simpa using h1
    simp [h1, h1b]
  · have h1b : ¬(f = .V6 ∧ t.cfg_state.defaults.disable_ipv6 = true) := by
      simpa using h1
    simp only [h1, if_false, hp, hf, Bool.not_false, Bool.and_self, if_true,
      Bool.false_eq_true]
    rw [if_neg h1b]

/-- C11: when start runs with reload=false and not in print mode, a family
whose bit is set in the active Snapshot is refused: it is not populated, its
iteration makes no call but the warning (none at all when it is IPv6 and
IPv6 is disabled, which is checked first), so no sink is opened and no line
emitted for it, and its bit in both Snapshots stays as it was.  start goes on
with the other family: that one is populated under its own conditions, its
run is in the trace, and it alone decides the status.  When start runs with
reload=true or in print mode the guard skips no family: the warning is never
in the trace and a family is populated exactly when it is not IPv6 disabled
by policy and its sink opens. -/
theorem start_guard (o : Outcomes) (reload : Bool) (s : State) (f : fw3_family) :
    (s.print_rules = false → reload = false → family_running s f = true →
      start_populates o reload s f = false ∧
      start_segment o reload s f =
        (if f = .V6 ∧ s.cfg_state.defaults.disable_ipv6 = true then []
         else [Event.warn_started f]) ∧
      (∀ e ∈ (start o reload s).ev, e.mentions f = true → e = Event.warn_started f) ∧
      has_flag (start o reload s).st.cfg_state.defaults.flags f =
        has_flag s.cfg_state.defaults.flags f ∧
      family_running (start o reload s).st f = true ∧
      (∀ g, g ≠ f →
        ((start o reload s).rv = 0 ↔ start_populates o reload s g = true) ∧
        (start_populates o reload s g = true →
          ∃ pre post, (start o reload s).ev =
            pre ++ spec_populate_family o s.print_rules reload g ++ post))) ∧
    ((reload = true ∨ s.print_rules = true) →
      ∀ g, Event.warn_started g ∉ (start o reload s).ev ∧
        start_populates o reload s g =
          (!(g == .V6 && s.cfg_state.defaults.disable_ipv6) &&
            (restore_pipe o s g false).1)) := by
  constructor
  · intro hp hr hf
    subst hr
    have hpop : start_populates o false s f = false := by
      simp [start_populates, hp, hf]
    have hseg : start_segment o false s f =
        (if f = .V6 ∧ s.cfg_state.defaults.disable_ipv6 = true then []
         else [Event.warn_started f]) := by
      unfold start_segment
      rw [start_family_refused o f 1 _ (by rw [start_entry_print_rules]; exact hp)
        (by rw [start_entry_running_self]; exact hf), start_entry_disable_ipv6]
    refine ⟨hpop, hseg, ?_, ?_, ?_, ?_⟩
    · intro e he hm
      have hown : e ∈ start_segment o false s f → e = Event.warn_started f := by
        intro h
        rw [hseg] at h
        split at h
        · simp at h
        · simpa using h
      rw [start_ev] at he
      simp only [List.mem_append] at he
      rcases he with ((he | he) | he) | he
      · rw [start_ipsets_mentions o false s f e he] at hm
        exact absurd hm (by decide)
      · cases f
        · exact hown he
        · rw [start_family_mentions o false s .V6 .V4 1 (by decide) e he] at hm
          exact absurd hm (by decide)
      · cases f
        · rw [start_family_mentions o false _ .V4 .V6 1 (by decide) e he] at hm
          exact absurd hm (by decide)
        · exact hown he
      · rw [start_finish_mentions false _ _ f e he] at hm
        exact absurd hm (by decide)
    · rw [start_cfg_flag, hpop]
      rfl
    · rw [start_running, hpop, hf, family_running_isSome s f hf]
      rfl
    · intro g hg
      constructor
      · rw [start_rv]
        cases f <;> cases g <;> first | exact absurd rfl hg | skip
        · rw [hpop]
          cases start_populates o false s .V6 <;> simp
        · rw [hpop]
          cases start_populates o false s .V4 <;> simp
      · intro hg2
        obtain ⟨pre, post, h1, _, _⟩ := start_family_run o false s g hg2
        exact ⟨pre, post, h1⟩
  · intro h g
    refine ⟨start_no_warning o reload s h g, ?_⟩
    rcases h with h | h <;> simp [start_populates, h]

/-- C11, at a running IPv4 firewall: start refuses IPv4 and goes on with
IPv6. -/
theorem start_guard_witness :
    (running_state.print_rules = false ∧ family_running running_state .V4 = true) ∧
    start_populates all_ok false running_state .V4 = false ∧
    start_segment all_ok false running_state .V4 = [Event.warn_started .V4] ∧
    ((start all_ok false running_state).rv = 0 ↔
      start_populates all_ok false running_state .V6 = true) :=
  ⟨⟨rfl, rfl⟩,
   ((start_guard all_ok false running_state .V4).1 rfl rfl rfl).1,
   ((start_guard all_ok false running_state .V4).1 rfl rfl rfl).2.1,
   (((start_guard all_ok false running_state .V4).1 rfl rfl rfl).2.2.2.2.2 .V6
      (by decide)).1⟩

/-! ## C12: the selective stop -/

theorem stop_body_no_write (p c r : Bool) :
    ∀ e ∈ stop_body_alphabet p c r, e.is_statefile_write = false := by
  cases p <;> cases c <;> cases r <;> decide

theorem stop_family_skipped (o : Outcomes) (reload : Bool) (f : fw3_family) (rv : Int)
    (t : State) (hf : family_running t f = false) :
    (stop_family o false reload f rv t).ev = [] := by
  simp [stop_family, hf]

/-- C12: for every stop(complete=false) with an active Snapshot: the
iteration of a family not marked active makes no call at all, so no sink is
opened for it and nothing in the trace names it; a family is torn down
exactly when it is marked active and its sink opens, and then its bit is
cleared in both Snapshots; the bits of a family that was skipped or whose
sink failed to open are as they were; and the state file is written, once,
from the active Snapshot and as the last call, exactly when the status is 0
(otherwise the whole state is as it was). -/
theorem stop_selective (o : Outcomes) (reload : Bool) (s : State)
    (hs : s.run_state.isSome = true) :
    (∀ f, family_running s f = false →
      stop_segment o false reload s f = [] ∧
      ∀ e ∈ (stop o false reload s).ev, e.mentions f = false) ∧
    (∀ f, stop_tears_down o false s f =
      (family_running s f && (restore_pipe o s f true).1)) ∧
    (∀ f, stop_tears_down o false s f = true →
      has_flag (stop o false reload s).st.cfg_state.defaults.flags f = false ∧
      family_running (stop o false reload s).st f = false) ∧
    (∀ f, stop_tears_down o false s f = false →
      has_flag (stop o false reload s).st.cfg_state.defaults.flags f =
        has_flag s.cfg_state.defaults.flags f ∧
      family_running (stop o false reload s).st f = family_running s f) ∧
    (∃ body, (stop o false reload s).ev =
        body ++ (if (stop o false reload s).rv = 0 then [Event.write_statefile .run]
                 else []) ∧
      ∀ e ∈ body, e.is_statefile_write = false) ∧
    ((stop o false reload s).rv = 0 →
      (stop o false reload s).st.persisted =
        snapshot_flags (stop o false reload s).st .run) ∧
    ((stop o false reload s).rv ≠ 0 → (stop o false reload s).st = s) := by
  refine ⟨?_, ?_, ?_, ?_, ?_, ?_, ?_⟩
  · intro f hf
    have hseg : stop_segment o false reload s f = [] := by
      unfold stop_segment
      exact stop_family_skipped o reload f 1 _
        (by rw [stop_entry_running_self]; exact hf)
    refine ⟨hseg, ?_⟩
    intro e he
    rw [stop_ev o false reload s (Or.inr hs)] at he
    simp only [List.mem_append] at he
    rcases he with ((he | he) | he) | he
    · exact stop_hotplug_mentions s f e he
    · cases f
      · have : e ∈ stop_segment o false reload s .V4 := he
        rw [hseg] at this
        simp at this
      · exact stop_family_mentions o false reload s .V6 .V4 1 (by decide) e he
    · cases f
      · exact stop_family_mentions o false reload _ .V4 .V6 1 (by decide) e he
      · have : e ∈ stop_segment o false reload s .V6 := he
        rw [hseg] at this
        simp at this
    · exact stop_after_mentions o false reload _ f e he
  · intro f
    simp [stop_tears_down]
  · intro f hf
    rw [stop_cfg_flag, stop_running, hf]
    simp
  · intro f hf
    rw [stop_cfg_flag, stop_running, hf]
    simp
  · refine ⟨stop_body o false reload s, ?_, ?_⟩
    · have h := stop_ev_body o false reload s
      rw [stop_isSome, hs, Bool.and_true] at h
      rw [h]
      congr 1
      by_cases h0 : (stop o false reload s).rv = 0
      · simp [h0]
      · simp [h0]
    · intro e he
      exact stop_body_no_write _ _ _ e (stop_body_mem o false reload s e he)
  · intro h0
    exact stop_persisted o false reload s h0 hs
  · exact stop_st_of_fail o false reload s

/-- C12, at a running IPv4 firewall with every sink opening. -/
theorem stop_selective_witness :
    running_state.run_state.isSome = true ∧
    (stop_segment all_ok false false running_state .V6 = [] ∧
     ∀ e ∈ (stop all_ok false false running_state).ev, e.mentions .V6 = false) ∧
    (has_flag (stop all_ok false false running_state).st.cfg_state.defaults.flags .V4 =
        false ∧
     family_running (stop all_ok false false running_state).st .V4 = false) :=
  ⟨rfl, (stop_selective all_ok false running_state rfl).1 .V6 rfl,
    (stop_selective all_ok false running_state rfl).2.2.1 .V4 rfl⟩

/-! ## C13: flush does not look at the bitmaps -/

theorem stop_tables_complete_congr (o : Outcomes) (s1 s2 : State) (reload : Bool)
    (f : fw3_family) (ts : List fw3_table) :
    stop_tables o s1 true reload f ts = stop_tables o s2 true reload f ts := by
  induction ts with
  | nil => rfl
  | cons t rest ih => simp [stop_tables, stop_table, ih]

theorem stop_family_complete_congr (o : Outcomes) (reload : Bool) (f : fw3_family)
    (rv : Int) (s1 s2 : State) (hp : s1.print_rules = s2.print_rules) :
    (stop_family o true reload f rv s1).ev = (stop_family o true reload f rv s2).ev := by
  have hpipe : restore_pipe o s1 f true = restore_pipe o s2 f true := by
    simp [restore_pipe, hp]
  unfold stop_family
  rw [hpipe, stop_tables_complete_congr o s1 s2]
  cases h3 : (restore_pipe o s2 f true).1 <;> simp [h3]

theorem stop_tears_down_complete (o : Outcomes) (s : State) (f : fw3_family) :
    stop_tears_down o true s f =
      (if s.print_rules then o.stdout_pipe f else o.command_pipe (restore_cmd f)) := by
  simp [stop_tears_down, restore_pipe_fst]

theorem stop_loop_isSome (o : Outcomes) (complete reload : Bool) (s : State) :
    (stop_loop o complete reload families 1 s).st.run_state.isSome =
      s.run_state.isSome := by
  rw [stop_loop_st]
  split
  · rw [family_set_both_isSome, stop_entry_isSome]
  · rw [stop_entry_isSome]

theorem stop_complete_congr (o : Outcomes) (reload : Bool) (s1 s2 : State)
    (hp : s1.print_rules = s2.print_rules)
    (hi : s1.run_state.isSome = s2.run_state.isSome) :
    (stop o true reload s1).ev = (stop o true reload s2).ev ∧
    (stop o true reload s1).rv = (stop o true reload s2).rv := by
  have htd : ∀ f, stop_tears_down o true s1 f = stop_tears_down o true s2 f := by
    intro f
    rw [stop_tears_down_complete, stop_tears_down_complete, hp]
  constructor
  · rw [stop_ev o true reload s1 (Or.inl rfl), stop_ev o true reload s2 (Or.inl rfl)]
    have h4 := stop_family_complete_congr o reload .V4 1 s1 s2 hp
    have h6 := stop_family_complete_congr o reload .V6 1
      (stop_entry o true reload s1 .V6) (stop_entry o true reload s2 .V6)
      (by rw [stop_entry_print_rules, stop_entry_print_rules, hp])
    rw [h4, h6]
    unfold stop_hotplug stop_after stop_ipsets
    rw [stop_loop_isSome, stop_loop_isSome, stop_loop_rv, stop_loop_rv, htd, htd, hp, hi]
  · rw [stop_rv, stop_rv, htd, htd]

theorem stop_conntrack_attempt (o : Outcomes) (reload : Bool) (s : State) :
    Event.fopen_conntrack o.conntrack ∈ (stop o true reload s).ev := by
  rw [stop_ev o true reload s (Or.inl rfl)]
  simp only [List.mem_append]
  right
  unfold stop_after
  simp only [List.mem_append]
  left
  right
  cases hk : o.conntrack <;> simp [stop_conntrack, hk]

/-- C13 (as stated, refuted): every table is present for both families, but
neither restore command can be executed, so flush emits no restore-sink
session at all: no table header and no flush-all for IPv4 or for IPv6.  It
returns 1 and IPv4 stays marked active; the connection-tracking flush is
still done. -/
theorem flush_without_flush_all :
    (∀ v6 table, stuck_env.first.has_table v6 table = true) ∧
    main stuck_env none .flush running_state =
      ⟨1, running_state,
       [Event.lock true,
        Event.hotplug_zones .run false,
        Event.command_pipe true .iptables_restore false,
        Event.warn_exec .iptables_restore,
        Event.command_pipe true .ip6tables_restore false,
        Event.warn_exec .ip6tables_restore,
        Event.command_pipe false .ipset false,
        Event.fopen_conntrack true,
        Event.info_conntrack,
        Event.fwrite_conntrack,
        Event.fclose_conntrack,
        Event.unlock]⟩ ∧
    family_running (main stuck_env none .flush running_state).st .V4 = true := by
  refine ⟨fun _ _ => rfl, rfl, rfl⟩

/-- C13 (amended): flush is stop(complete=true, reload=false) under the
lock.  Its trace and status are the same for two states that differ only in
their family-active bitmaps.  For IPv4 and for IPv6, whether or not IPv6 is
disabled by policy and whatever the bitmaps say, a family whose sink opens
gets one session with header, flush-all, COMMIT for every present table, and
afterwards is marked active in neither Snapshot.  A family whose sink fails
to open gets no session: its iteration is only the failed open (with the
warning), without any table header, and its bits stay as they were.  The
connection-tracking flush is attempted in every case. -/
theorem flush_ignores_bitmaps (env : Env) (use_family : Option fw3_family)
    (s : State) (cfg_flags run_flags : fw3_flags) :
    (main env use_family .flush (with_bitmaps s cfg_flags run_flags)).ev =
      (main env use_family .flush s).ev ∧
    (main env use_family .flush (with_bitmaps s cfg_flags run_flags)).rv =
      (main env use_family .flush s).rv ∧
    (env.lock = true →
      (main env use_family .flush s).ev =
        [Event.lock true] ++ (stop env.first true false s).ev ++ [Event.unlock] ∧
      (main env use_family .flush s).st = (stop env.first true false s).st) ∧
    (∀ f, (restore_pipe env.first s f true).1 = true →
      (∃ pre post,
        (stop env.first true false s).ev =
          pre ++
          ((if s.print_rules then [Event.stdout_pipe true]
            else [Event.command_pipe true (restore_cmd f) true]) ++
           (present_tables env.first f).flatMap
            (fun table =>
              [Event.info_table .Flushing f table,
               Event.pr_table table,
               Event.flush_all table,
               Event.pr_commit]) ++
           [Event.command_close]) ++
          post ∧
        (∀ e ∈ pre, e.mentions f = false) ∧
        (∀ e ∈ post, e.mentions f = false)) ∧
      has_flag (stop env.first true false s).st.cfg_state.defaults.flags f = false ∧
      family_running (stop env.first true false s).st f = false) ∧
    Event.fopen_conntrack env.first.conntrack ∈ (stop env.first true false s).ev ∧
    (∀ f, (restore_pipe env.first s f true).1 = false →
      stop_segment env.first true false s f =
        (if s.print_rules then [Event.stdout_pipe false]
         else [Event.command_pipe true (restore_cmd f) false,
               Event.warn_exec (restore_cmd f)]) ∧
      has_flag (stop env.first true false s).st.cfg_state.defaults.flags f =
        has_flag s.cfg_state.defaults.flags f ∧
      family_running (stop env.first true false s).st f = family_running s f) := by
  have hc := stop_complete_congr env.first false (with_bitmaps s cfg_flags run_flags) s
    rfl (by cases hr : s.run_state <;> simp [with_bitmaps, hr])
  refine ⟨?_, ?_, ?_, ?_, stop_conntrack_attempt env.first false s, ?_⟩
  · cases hl : env.lock <;> simp [main, with_lock, hl, hc.1]
  · cases hl : env.lock <;> simp [main, with_lock, hl, hc.2]
  · intro hl
    simp [main, with_lock, hl]
  · intro f hf
    have ht : stop_tears_down env.first true s f = true := by
      simp [stop_tears_down, hf]
    refine ⟨?_, ?_, ?_⟩
    · obtain ⟨pre, post, h1, h2, h3⟩ := stop_family_run env.first true false s f ht
      rw [spec_teardown_family_eq] at h1
      exact ⟨pre, post, h1, h2, h3⟩
    · rw [stop_cfg_flag, ht]
      rfl
    · rw [stop_running, ht]
      rfl
  · intro f hf
    have ht : stop_tears_down env.first true s f = false := by
      simp [stop_tears_down, hf]
    refine ⟨?_, ?_, ?_⟩
    · have hpr : restore_pipe env.first (stop_entry env.first true false s f) f true =
          restore_pipe env.first s f true :=
        restore_pipe_print_rules env.first s _ f true
          (stop_entry_print_rules env.first true false s f)
      have hseg : stop_segment env.first true false s f =
          (restore_pipe env.first s f true).2 := by
        unfold stop_segment stop_family
        rw [hpr]
        simp [hf]
      rw [hseg]
      rw [restore_pipe_fst] at hf
      unfold restore_pipe
      cases hp : s.print_rules
      · simp only [hp, Bool.false_eq_true, if_false] at hf ⊢
        simp [hf]
      · simp only [hp, if_true] at hf ⊢
        simp [hf]
    · rw [stop_cfg_flag, ht]
      simp
    · rw [stop_running, ht]
      simp

/-- C13 (amended), at a running IPv4 firewall: IPv6, not marked active, is
flushed. -/
theorem flush_ignores_bitmaps_witness :
    ((restore_pipe good_env.first running_state .V6 true).1 = true ∧
      good_env.lock = true) ∧
    family_running (stop good_env.first true false running_state).st .V6 = false ∧
    (main good_env none .flush running_state).st =
      (stop good_env.first true false running_state).st :=
  ⟨⟨rfl, rfl⟩,
   ((flush_ignores_bitmaps good_env none running_state ⟨false, false⟩ ⟨false, false⟩).2.2.2.1
      .V6 rfl).2.2,
   ((flush_ignores_bitmaps good_env none running_state ⟨false, false⟩ ⟨false, false⟩).2.2.1
      rfl).2⟩

/-! ## Every call of start and stop is in its alphabet -/

theorem start_mem (o : Outcomes) (reload : Bool) (s : State) :
    ∀ e ∈ (start o reload s).ev, e ∈ start_alphabet s.print_rules reload := by
  intro e he
  rw [start_ev_body, List.mem_append] at he
  unfold start_alphabet
  simp only [List.mem_append]
  rcases he with he | he
  · exact Or.inl (Or.inl (start_body_mem o reload s e he))
  · unfold start_finish at he
    have hp : (start_loop o reload families 1 s).st.print_rules = s.print_rules := by
      rw [start_loop_st]
      split
      · rw [family_set_both_print_rules, start_entry_print_rules]
      · rw [start_entry_print_rules]
    rw [hp] at he
    split at he
    · cases hq : s.print_rules
      · simp [hq] at he ⊢
        rcases he with he | he | he | he <;> simp [he]
      · simp [hq] at he ⊢
        simp [he]
    · simp at he

theorem stop_mem (o : Outcomes) (complete reload : Bool) (s : State) :
    ∀ e ∈ (stop o complete reload s).ev, e ∈ stop_alphabet s.print_rules complete reload := by
  intro e he
  rw [stop_ev_body, List.mem_append] at he
  unfold stop_alphabet
  rw [List.mem_append]
  rcases he with he | he
  · exact Or.inl (stop_body_mem o complete reload s e he)
  · split at he
    · exact Or.inr he
    · simp at he

theorem start_no_lock (o : Outcomes) (reload : Bool) (s : State) :
    ∀ e ∈ (start o reload s).ev, e.is_lock = false := by
  intro e he
  have h : ∀ p r, ∀ e ∈ start_alphabet p r, e.is_lock = false := by
    intro p r
    cases p <;> cases r <;> decide
  exact h _ _ e (start_mem o reload s e he)

theorem stop_no_lock (o : Outcomes) (complete reload : Bool) (s : State) :
    ∀ e ∈ (stop o complete reload s).ev, e.is_lock = false := by
  intro e he
  have h : ∀ p c r, ∀ e ∈ stop_alphabet p c r, e.is_lock = false := by
    intro p c r
    cases p <;> cases c <;> cases r <;> decide
  exact h _ _ _ e (stop_mem o complete reload s e he)

theorem start_persisted_print (o : Outcomes) (reload : Bool) (s : State)
    (hp : s.print_rules = true) : (start o reload s).st.persisted = s.persisted := by
  have hl : (start_loop o reload families 1 s).st.persisted = s.persisted := by
    rw [start_loop_st]
    have he : (start_entry o reload s .V6).persisted = s.persisted := by
      simp only [start_entry, start_family_st]
      split <;> rfl
    split
    · rw [family_set_both_persisted, he]
    · exact he
  have hq : (start_loop o reload families 1 s).st.print_rules = true := by
    rw [start_loop_st]
    split
    · rw [family_set_both_print_rules, start_entry_print_rules, hp]
    · rw [start_entry_print_rules, hp]
  have : (start o reload s).st = (start_loop o reload families 1 s).st := by
    simp only [start, start_finish, hq]
    split <;> rfl
  rw [this, hl]

/-! ## C14: print -/

/-- C14 (as stated, refuted): at a running IPv4 firewall start(reload=false)
refuses IPv4 and sends no line for it, while print renders the IPv4 tables:
print does not render what start(reload=false) would send. -/
theorem print_renders_what_start_refuses :
    family_running running_state .V4 = true ∧
    start_populates good_env.first false running_state .V4 = false ∧
    Event.print_rules .cfg .V4 .FILTER ∉ (start good_env.first false running_state).ev ∧
    Event.warn_started .V4 ∈ (start good_env.first false running_state).ev ∧
    Event.print_rules .cfg .V4 .FILTER ∈ (main good_env none .print running_state).ev := by
  refine ⟨rfl, rfl, ?_, ?_, ?_⟩ <;> decide

/-- C14 (amended): print is start(reload=false) run in print mode with
ipsets disabled in the desired Snapshot beforehand.  It applies no
already-running guard: a family is rendered exactly when it is not IPv6
disabled by policy and its stdout sink opens, also when it is marked active.
For a rendered family the trace holds the stdout open, then for every present
table the fixed sequence of start, then the include directives and the
close; where start(reload=false) populates the same family the two runs
differ only in the open.  The trace holds no spawn of an external command,
no ipset session, no include execution, no hotplug notification, no write of
the state file and no lock; the persisted bitmap is as it was. -/
theorem print_renders (env : Env) (use_family : Option fw3_family) (s : State) :
    (main env use_family .print s).ev =
      (if use_family = some .V6 ∧ s.cfg_state.defaults.disable_ipv6 = true then
        [Event.warn_ipv6_disabled] else []) ++
      [Event.freopen_stderr] ++ (start env.first false (print_state s)).ev ∧
    (print_state s).cfg_state.disable_ipsets = true ∧
    (main env use_family .print s).st.cfg_state.disable_ipsets = true ∧
    (∀ f, start_populates env.first false (print_state s) f =
      (!(f == .V6 && s.cfg_state.defaults.disable_ipv6) && env.first.stdout_pipe f)) ∧
    (∀ f, start_populates env.first false (print_state s) f = true →
      ∃ pre post,
        (main env use_family .print s).ev =
          pre ++
          ([Event.stdout_pipe true] ++
           (present_tables env.first f).flatMap
            (fun table =>
              [Event.info_table .Populating f table,
               Event.pr_table table,
               Event.print_default_chains .cfg f table false,
               Event.print_zone_chains .cfg f table false,
               Event.print_default_head_rules .cfg f table false,
               Event.print_rules .cfg f table,
               Event.print_redirects .cfg f table,
               Event.print_forwards .cfg f table,
               Event.print_zone_rules .cfg f table false,
               Event.print_default_tail_rules .cfg f table false,
               Event.pr_commit]) ++
           [Event.print_includes .cfg f false, Event.command_close]) ++
          post ∧
        (∀ e ∈ pre, e.mentions f = false) ∧
        (∀ e ∈ post, e.mentions f = false)) ∧
    (∀ f, start_populates env.first false s f = true →
      start_populates env.first false (print_state s) f = true →
      ∃ lines,
        start_segment env.first false s f =
          (if s.print_rules then Event.stdout_pipe true
           else Event.command_pipe false (restore_cmd f) true) :: lines ∧
        start_segment env.first false (print_state s) f =
          Event.stdout_pipe true :: lines) ∧
    (∀ e ∈ (main env use_family .print s).ev, e.is_live_effect = false) ∧
    (main env use_family .print s).st.persisted = s.persisted := by
  have hev : (main env use_family .print s).ev =
      (if use_family = some .V6 ∧ s.cfg_state.defaults.disable_ipv6 = true then
        [Event.warn_ipv6_disabled] else []) ++
      [Event.freopen_stderr] ++ (start env.first false (print_state s)).ev := by
    simp only [main, print_body, print_state]
    cases use_family with
    | none => simp
    | some f => cases f <;> cases s.cfg_state.defaults.disable_ipv6 <;> simp
  have hst : (main env use_family .print s).st =
      (start env.first false (print_state s)).st := rfl
  have hips : ∀ o reload t, (start o reload t).st.cfg_state.disable_ipsets =
      t.cfg_state.disable_ipsets := by
    intro o reload t
    have hfs : ∀ u f b, (family_set_both u f b).cfg_state.disable_ipsets =
        u.cfg_state.disable_ipsets := by
      intro u f b
      cases b <;> simp [family_set_both, family_set]
    have hl : (start_loop o reload families 1 t).st.cfg_state.disable_ipsets =
        t.cfg_state.disable_ipsets := by
      rw [start_loop_st]
      have he : (start_entry o reload t .V6).cfg_state.disable_ipsets =
          t.cfg_state.disable_ipsets := by
        simp only [start_entry, start_family_st]
        split
        · exact hfs _ _ _
        · rfl
      split
      · rw [hfs, he]
      · exact he
    rcases start_st_cases o reload t with h | h <;> rw [h] <;> exact hl
  refine ⟨hev, rfl, ?_, ?_, ?_, ?_, ?_, ?_⟩
  · rw [hst, hips]
    rfl
  · intro f
    simp [start_populates, print_state, restore_pipe_fst]
  · intro f hf
    obtain ⟨pre, post, h1, h2, h3⟩ := start_family_run env.first false (print_state s) f hf
    rw [spec_populate_family_eq] at h1
    refine ⟨(if use_family = some .V6 ∧ s.cfg_state.defaults.disable_ipv6 = true then
        [Event.warn_ipv6_disabled] else []) ++ [Event.freopen_stderr] ++ pre, post, ?_, ?_, h3⟩
    · rw [hev, h1]
      simp [print_state, List.append_assoc]
    · intro e he
      simp only [List.mem_append] at he
      rcases he with (he | he) | he
      · split at he
        · simp at he
          subst he
          rfl
        · simp at he
      · simp at he
        subst he
        rfl
      · exact h2 e he
  · intro f h1 h2
    refine ⟨(present_tables env.first f).flatMap
        (fun table => Event.info_table .Populating f table ::
          spec_populate_table false f table) ++
        [Event.print_includes .cfg f false, Event.command_close], ?_⟩
    have e1 : start_segment env.first false s f =
        spec_populate_family env.first s.print_rules false f := by
      unfold start_segment
      rw [start_family_segment env.first false _ f 1
        (by rw [start_populates_entry]; exact h1), start_entry_print_rules]
    have e2 : start_segment env.first false (print_state s) f =
        spec_populate_family env.first true false f := by
      unfold start_segment
      rw [start_family_segment env.first false _ f 1
        (by rw [start_populates_entry]; exact h2), start_entry_print_rules]
      rfl
    rw [e1, e2]
    cases hp : s.print_rules <;> simp [spec_populate_family]
  · intro e he
    rw [hev] at he
    simp only [List.mem_append] at he
    rcases he with (he | he) | he
    · split at he
      · simp at he
        subst he
        rfl
      · simp at he
    · simp at he
      subst he
      rfl
    · have h : ∀ e ∈ start_alphabet true false, e.is_live_effect = false := by decide
      exact h e (start_mem env.first false (print_state s) e he)
  · rw [hst, start_persisted_print env.first false (print_state s) rfl]
    rfl

/-- C14 (amended), at a running IPv4 firewall: IPv4 is rendered. -/
theorem print_renders_witness :
    start_populates good_env.first false (print_state running_state) .V4 = true ∧
    ∃ pre post,
      (main good_env none .print running_state).ev =
        pre ++ spec_populate_family good_env.first true false .V4 ++ post ∧
      (∀ e ∈ pre, e.mentions .V4 = false) ∧
      (∀ e ∈ post, e.mentions .V4 = false) :=
  ⟨rfl, (print_renders good_env none running_state).2.2.2.2.1 .V4 rfl⟩

/-! ## C15: the lock -/

/-- C15: for start, stop, flush, restart and reload: when fw3_lock succeeds
the trace is the lock, then every call of the lifecycle operations of the
command, then one unlock as the last call, whatever the status; the status
and the state (bitmaps, persisted bitmap) are those the operations leave,
and no call in between is a lock or an unlock.  When fw3_lock fails the only
call is the failed lock, the state is untouched and the status is 1. -/
theorem lock_brackets (env : Env) (use_family : Option fw3_family) (cmd : Command)
    (s : State) (body : State → Run) (h : lifecycle_body env cmd = some body) :
    (env.lock = true →
      main env use_family cmd s =
        ⟨(body s).rv, (body s).st, [Event.lock true] ++ (body s).ev ++ [Event.unlock]⟩ ∧
      ∀ e ∈ (body s).ev, e.is_lock = false) ∧
    (env.lock = false → main env use_family cmd s = ⟨1, s, [Event.lock false]⟩) := by
  have hmain : main env use_family cmd s = with_lock env s body := by
    cases cmd <;> simp [lifecycle_body] at h <;> subst h <;> rfl
  have hno : ∀ e ∈ (body s).ev, e.is_lock = false := by
    cases cmd <;> simp only [lifecycle_body, Option.some.injEq] at h <;>
      first | exact absurd h (by simp) | subst h
    · exact start_no_lock env.first false s
    · exact stop_no_lock env.first false false s
    · exact stop_no_lock env.first true false s
    · intro e he
      simp only [restart_body, List.mem_append] at he
      rcases he with he | he
      · exact stop_no_lock env.first true false s e he
      · exact start_no_lock env.second false _ e he
    · intro e he
      simp only [reload_body, List.mem_append] at he
      rcases he with he | he
      · exact stop_no_lock env.first false true s e he
      · exact start_no_lock env.second _ _ e he
  constructor
  · intro hl
    refine ⟨?_, hno⟩
    rw [hmain]
    simp [with_lock, hl]
  · intro hl
    rw [hmain]
    simp [with_lock, hl]

/-- C15, at the restart of a running firewall with the lock taken. -/
theorem lock_brackets_witness :
    (lifecycle_body good_env .restart = some (restart_body good_env) ∧
      good_env.lock = true) ∧
    main good_env none .restart running_state =
      ⟨(restart_body good_env running_state).rv,
       (restart_body good_env running_state).st,
       [Event.lock true] ++ (restart_body good_env running_state).ev ++ [Event.unlock]⟩ :=
  ⟨⟨rfl, rfl⟩,
   ((lock_brackets good_env none .restart running_state (restart_body good_env) rfl).1
      rfl).1⟩

/-! ## C17: the family flags of print -/

/-- C17 (the code at the failing inputs): print does not use the family
flag.  Its status, its state and its trace are those of print without a
flag, but for the warning that -6 adds when IPv6 is disabled.  With every
table present and every sink opening, -4 still renders the IPv6 filter
table, -6 still renders the IPv4 filter table, and print without a flag
renders the IPv6 filter table too. -/
theorem print_ignores_family_flag (env : Env) (use_family : Option fw3_family)
    (s : State) :
    (main env use_family .print s).rv = (main env none .print s).rv ∧
    (main env use_family .print s).st = (main env none .print s).st ∧
    (main env use_family .print s).ev =
      (if use_family = some .V6 ∧ s.cfg_state.defaults.disable_ipv6 = true then
        [Event.warn_ipv6_disabled] else []) ++ (main env none .print s).ev ∧
    Event.print_rules .cfg .V6 .FILTER ∈ (main good_env (some .V4) .print fresh_state).ev ∧
    Event.print_rules .cfg .V4 .FILTER ∈ (main good_env (some .V6) .print fresh_state).ev ∧
    Event.print_rules .cfg .V6 .FILTER ∈ (main good_env none .print fresh_state).ev := by
  refine ⟨rfl, rfl, ?_, ?_, ?_, ?_⟩
  · simp only [main, print_body]
    cases use_family with
    | none => simp
    | some f => cases f <;> cases s.cfg_state.defaults.disable_ipv6 <;> simp
  · decide
  · decide
  · decide

/-! ## C18: the lookups -/

theorem has_device_eq (name : String) (ds : List fw3_device) :
    has_device name ds = ds.any (fun d => d.name == name) := by
  induction ds with
  | nil => rfl
  | cons d rest ih =>
    by_cases h : d.name = name <;> simp [has_device, h, ih]

theorem lookup_network_zones_eq (net : String) (zs : List fw3_zone) :
    lookup_network_zones net zs =
      match zs.find? (fun z => z.networks.any (fun d => d.name == net)) with
      | some z => (0, [Event.printf_zone z.name])
      | none => (1, []) := by
  induction zs with
  | nil => rfl
  | cons z rest ih =>
    cases h : z.networks.any (fun d => d.name == net) <;>
      simp [lookup_network_zones, has_device_eq, List.find?_cons, h, ih]

theorem lookup_device_zones_eq (dev : String) (zs : List fw3_zone) :
    lookup_device_zones dev zs =
      match zs.find? (fun z => z.devices.any (fun d => d.name == dev)) with
      | some z => (0, [Event.printf_zone z.name])
      | none => (1, []) := by
  induction zs with
  | nil => rfl
  | cons z rest ih =>
    cases h : z.devices.any (fun d => d.name == dev) <;>
      simp [lookup_device_zones, has_device_eq, List.find?_cons, h, ih]

theorem find_isSome_iff (zs : List fw3_zone) (sel : fw3_zone → List fw3_device)
    (n : String) :
    (zs.find? (fun z => (sel z).any (fun d => d.name == n))).isSome = true ↔
      ∃ z ∈ zs, ∃ d ∈ sel z, d.name = n := by
  simp [List.find?_isSome]

/-- C18: the network lookup answers with the first zone, in declaration
order, that has a network of the given name: status 0 and exactly one line,
the name of that zone; when no zone has such a network, status 1 and no
line.  Its status is 0 exactly when some zone has a network of that name.
The device lookup does the same over the devices of the zones.  Either
lookup leaves the whole state as it was (both bitmaps and the persisted
bitmap) and makes no other call: no lock, no sink, no write of the state
file. -/
theorem lookup_first_zone (env : Env) (use_family : Option fw3_family)
    (n : String) (s : State) :
    main env use_family (.network n) s = spec_lookup_answer s (spec_network_zone n s) ∧
    ((main env use_family (.network n) s).rv = 0 ↔
      ∃ z ∈ s.cfg_state.zones, ∃ d ∈ z.networks, d.name = n) ∧
    main env use_family (.device n) s = spec_lookup_answer s (spec_device_zone n s) ∧
    ((main env use_family (.device n) s).rv = 0 ↔
      ∃ z ∈ s.cfg_state.zones, ∃ d ∈ z.devices, d.name = n) ∧
    (main env use_family (.network n) s).st = s ∧
    (main env use_family (.device n) s).st = s ∧
    (∀ e ∈ (main env use_family (.network n) s).ev ++
        (main env use_family (.device n) s).ev,
      ∃ name, e = Event.printf_zone name) := by
  have hn : main env use_family (.network n) s =
      spec_lookup_answer s (spec_network_zone n s) := by
    simp only [main, lookup_network, lookup_network_zones_eq, spec_network_zone]
    cases s.cfg_state.zones.find? (fun z => z.networks.any (fun d => d.name == n)) <;> rfl
  have hd : main env use_family (.device n) s =
      spec_lookup_answer s (spec_device_zone n s) := by
    simp only [main, lookup_device, lookup_device_zones_eq, spec_device_zone]
    cases s.cfg_state.zones.find? (fun z => z.devices.any (fun d => d.name == n)) <;> rfl
  refine ⟨hn, ?_, hd, ?_, ?_, ?_, ?_⟩
  · rw [hn, ← find_isSome_iff s.cfg_state.zones (fun z => z.networks) n]
    unfold spec_network_zone
    cases s.cfg_state.zones.find? (fun z => z.networks.any (fun d => d.name == n)) <;>
      simp [spec_lookup_answer]
  · rw [hd, ← find_isSome_iff s.cfg_state.zones (fun z => z.devices) n]
    unfold spec_device_zone
    cases s.cfg_state.zones.find? (fun z => z.devices.any (fun d => d.name == n)) <;>
      simp [spec_lookup_answer]
  · rfl
  · rfl
  · intro e he
    rw [hn, hd, List.mem_append] at he
    rcases he with he | he
    · cases hz : spec_network_zone n s <;> simp [hz, spec_lookup_answer] at he
      exact ⟨_, he⟩
    · cases hz : spec_device_zone n s <;> simp [hz, spec_lookup_answer] at he
      exact ⟨_, he⟩

/-! ## C19: the closing part of start -/

theorem start_loop_print_rules (o : Outcomes) (reload : Bool) (s : State) :
    (start_loop o reload families 1 s).st.print_rules = s.print_rules := by
  rw [start_loop_st]
  split
  · rw [family_set_both_print_rules, start_entry_print_rules]
  · rw [start_entry_print_rules]

theorem start_rv_loop (o : Outcomes) (reload : Bool) (s : State) :
    (start o reload s).rv = (start_loop o reload families 1 s).rv := by
  rw [start_rv, start_loop_rv]

/-- C19: the trace of start is the calls of its ipset session and family
loop followed by its closing part.  When the status is 0, that is when at
least one family was populated, the closing part is the default policy side
effects and then, unless printing, the include scripts, the hotplug
notification and the write of the state file from the desired Snapshot, in
this order; the persisted bitmap is then that of the desired Snapshot.  When
no family was populated the closing part is empty and the whole state,
persisted bitmap included, is as it was.  No call before the closing part is
one of these four, and no call of the closing part works on a sink, so every
sink has been closed before. -/
theorem start_closing_part (o : Outcomes) (reload : Bool) (s : State) :
    ((start o reload s).rv = 0 ↔ ∃ f, start_populates o reload s f = true) ∧
    (start o reload s).ev =
      start_body o reload s ++
      (if (start o reload s).rv = 0 then
        Event.set_defaults .cfg ::
          (if s.print_rules then []
           else [Event.run_includes .cfg reload, Event.hotplug_zones .cfg true,
                 Event.write_statefile .cfg])
       else []) ∧
    (∀ e ∈ start_body o reload s, e.is_closing_effect = false) ∧
    (∀ e ∈ [Event.set_defaults .cfg, Event.run_includes .cfg reload,
        Event.hotplug_zones .cfg true, Event.write_statefile .cfg],
      e.is_sink_call = false) ∧
    ((start o reload s).rv = 0 → s.print_rules = false →
      (start o reload s).st.persisted = snapshot_flags (start o reload s).st .cfg) ∧
    ((start o reload s).rv = 0 → s.print_rules = true →
      (start o reload s).st.persisted = s.persisted) ∧
    ((start o reload s).rv ≠ 0 → (start o reload s).st = s) := by
  refine ⟨?_, ?_, ?_, ?_, ?_, ?_, ?_⟩
  · rw [start_rv]
    constructor
    · intro h
      cases h4 : start_populates o reload s .V4
      · cases h6 : start_populates o reload s .V6
        · simp [h4, h6] at h
        · exact ⟨.V6, h6⟩
      · exact ⟨.V4, h4⟩
    · rintro ⟨f, hf⟩
      cases f <;> simp [hf]
  · rw [start_ev_body, start_rv_loop]
    congr 1
    unfold start_finish
    rw [start_loop_print_rules]
    by_cases h0 : (start_loop o reload families 1 s).rv = 0
    · cases hp : s.print_rules <;> simp [h0]
    · simp [h0]
  · intro e he
    have h : ∀ p r, ∀ e ∈ start_body_alphabet p r, e.is_closing_effect = false := by
      intro p r
      cases p <;> cases r <;> decide
    exact h _ _ e (start_body_mem o reload s e he)
  · cases reload <;> decide
  · intro h0 hp
    rw [start_rv_loop] at h0
    have : (start o reload s).st =
        fw3_write_statefile (start_loop o reload families 1 s).st .cfg := by
      simp [start, start_finish, h0, start_loop_print_rules, hp]
    rw [this]
    rfl
  · intro _ hp
    exact start_persisted_print o reload s hp
  · exact start_st_of_fail o reload s

/-! ## C16: the order of families and tables -/

theorem run_sessions_append (b : Bool) (xs ys : List Event) :
    run_sessions b (xs ++ ys) =
      (run_sessions b xs).bind (fun next => run_sessions next ys) := by
  induction xs generalizing b with
  | nil => rfl
  | cons e rest ih =>
    simp only [List.cons_append, run_sessions]
    cases session_step b e with
    | none => rfl
    | some next => exact ih next

theorem run_sessions_seq (b c d : Bool) (xs ys : List Event)
    (h1 : run_sessions b xs = some c) (h2 : run_sessions c ys = some d) :
    run_sessions b (xs ++ ys) = some d := by
  rw [run_sessions_append, h1]
  exact h2

theorem restore_pipe_sessions (o : Outcomes) (s : State) (f : fw3_family) (silent : Bool) :
    run_sessions false (restore_pipe o s f silent).2 =
      some (restore_pipe o s f silent).1 := by
  unfold restore_pipe
  by_cases hp : s.print_rules = true
  · simp [hp, run_sessions, session_step]
  · by_cases hc : o.command_pipe (restore_cmd f) = true <;>
      simp [hp, hc, run_sessions, session_step, Event.is_sink_write]

theorem start_tables_sessions (o : Outcomes) (reload : Bool) (f : fw3_family)
    (ts : List fw3_table) : run_sessions true (start_tables o reload f ts) = some true := by
  induction ts with
  | nil => rfl
  | cons t rest ih =>
    simp only [start_tables]
    apply run_sessions_seq true true true _ _ _ ih
    by_cases ht : o.has_table (f == .V6) t = true
    · simp [ht, start_table, run_sessions, session_step, Event.is_sink_write]
    · simp [ht, run_sessions]

theorem stop_tables_sessions (o : Outcomes) (s : State) (complete reload : Bool)
    (f : fw3_family) (ts : List fw3_table) :
    run_sessions true (stop_tables o s complete reload f ts) = some true := by
  induction ts with
  | nil => rfl
  | cons t rest ih =>
    simp only [stop_tables]
    apply run_sessions_seq true true true _ _ _ ih
    by_cases ht : o.has_table (f == .V6) t = true
    · cases complete <;> cases hs : s.run_state.isSome <;>
        simp [ht, stop_table, hs, run_sessions, session_step, Event.is_sink_write]
    · simp [ht, run_sessions]

theorem start_family_sessions (o : Outcomes) (reload : Bool) (f : fw3_family) (rv : Int)
    (s : State) : run_sessions false (start_family o reload f rv s).ev = some false := by
  unfold start_family
  by_cases h1 : (f == .V6 && s.cfg_state.defaults.disable_ipv6) = true
  · simp [h1, run_sessions]
  · by_cases h2 : (!s.print_rules && !reload && family_running s f) = true
    · simp [h1, h2, run_sessions, session_step, Event.is_sink_write]
    · cases h3 : (restore_pipe o s f false).1
      · simp only [h1, h2, h3, if_false, Bool.not_false, if_true, Bool.false_eq_true]
        rw [restore_pipe_sessions, h3]
      · simp only [h1, h2, h3, if_false, Bool.not_true, Bool.false_eq_true]
        apply run_sessions_seq false true false
        · apply run_sessions_seq false true true
          · rw [restore_pipe_sessions, h3]
          · exact start_tables_sessions o reload f tables
        · rfl

theorem stop_family_sessions (o : Outcomes) (complete reload : Bool) (f : fw3_family)
    (rv : Int) (s : State) :
    run_sessions false (stop_family o complete reload f rv s).ev = some false := by
  unfold stop_family
  by_cases h1 : (!complete && !family_running s f) = true
  · simp [h1, run_sessions]
  · cases h3 : (restore_pipe o s f true).1
    · simp only [h1, h3, if_false, Bool.not_false, if_true, Bool.false_eq_true]
      rw [restore_pipe_sessions, h3]
    · simp only [h1, h3, if_false, Bool.not_true, Bool.false_eq_true]
      apply run_sessions_seq false true false
      · apply run_sessions_seq false true true
        · rw [restore_pipe_sessions, h3]
        · exact stop_tables_sessions o s complete reload f tables
      · rfl

theorem start_sessions (o : Outcomes) (reload : Bool) (s : State) :
    run_sessions false (start o reload s).ev = some false := by
  rw [start_ev]
  apply run_sessions_seq false false false
  · apply run_sessions_seq false false false
    · apply run_sessions_seq false false false
      · unfold start_ipsets
        cases hg : (!s.print_rules && !reload) <;> cases hc : o.command_pipe .ipset <;>
          simp [hg, hc, run_sessions, session_step, Event.is_sink_write]
      · exact start_family_sessions o reload .V4 1 s
    · exact start_family_sessions o reload .V6 1 _
  · unfold start_finish
    split
    · split <;> simp [run_sessions, session_step, Event.is_sink_write]
    · rfl

theorem stop_sessions (o : Outcomes) (complete reload : Bool) (s : State) :
    run_sessions false (stop o complete reload s).ev = some false := by
  by_cases h0 : complete = true ∨ s.run_state.isSome = true
  · rw [stop_ev o complete reload s h0]
    apply run_sessions_seq false false false
    · apply run_sessions_seq false false false
      · apply run_sessions_seq false false false
        · unfold stop_hotplug
          split <;> simp [run_sessions, session_step, Event.is_sink_write]
        · exact stop_family_sessions o complete reload .V4 1 s
      · exact stop_family_sessions o complete reload .V6 1 _
    · unfold stop_after
      apply run_sessions_seq false false false
      · apply run_sessions_seq false false false
        · unfold stop_ipsets
          split
          · split <;> simp [run_sessions, session_step, Event.is_sink_write]
          · rfl
        · unfold stop_conntrack
          split
          · split <;> simp [run_sessions, session_step, Event.is_sink_write]
          · rfl
      · split <;> simp [run_sessions, session_step, Event.is_sink_write]
  · have hn : s.run_state.isNone = true := by
      cases hr : s.run_state
      · rfl
      · exact absurd (Or.inr (by simp [hr])) h0
    have hc : complete = false := by
      cases complete
      · rfl
      · exact absurd (Or.inl rfl) h0
    subst hc
    cases reload <;> simp [stop, hn, run_sessions, session_step, Event.is_sink_write]

theorem with_lock_sessions (env : Env) (s : State) (body : State → Run)
    (h : run_sessions false (body s).ev = some false) :
    run_sessions false (with_lock env s body).ev = some false := by
  unfold with_lock
  split
  · simp only []
    apply run_sessions_seq false false false
    · exact run_sessions_seq false false false _ _ rfl h
    · rfl
  · rfl

/-- C20: in the trace of every command the sink sessions are strictly
sequential.  Running the session discipline over the trace from "no session
open" never meets a violation and ends with no session open: every open,
successful or failed, happens while no session is open; every line (of the
rule program or of the ipset session) is written while a session is open;
every close closes an open session; after a failed open no write or close
follows before the next successful open; and no session is open when the
command returns. -/
theorem sessions_sequential (env : Env) (use_family : Option fw3_family)
    (cmd : Command) (s : State) :
    run_sessions false (main env use_family cmd s).ev = some false := by
  cases cmd with
  | print =>
    simp only [main, print_body]
    apply run_sessions_seq false false false
    · apply run_sessions_seq false false false
      · split
        · rfl
        · split <;> rfl
      · rfl
    · exact start_sessions env.first false _
  | start => exact with_lock_sessions env s _ (start_sessions env.first false s)
  | stop => exact with_lock_sessions env s _ (stop_sessions env.first false false s)
  | flush => exact with_lock_sessions env s _ (stop_sessions env.first true false s)
  | restart =>
    apply with_lock_sessions env s
    simp only [restart_body]
    exact run_sessions_seq false false false _ _ (stop_sessions env.first true false s)
      (start_sessions env.second false _)
  | reload =>
    apply with_lock_sessions env s
    simp only [reload_body]
    exact run_sessions_seq false false false _ _ (stop_sessions env.first false true s)
      (start_sessions env.second _ _)
  | network net =>
    simp only [main, lookup_network, lookup_network_zones_eq]
    split <;> rfl
  | device dev =>
    simp only [main, lookup_device, lookup_device_zones_eq]
    split <;> rfl
  | other => rfl

/-! ## Concrete runs -/

/-- C19, at a first-ever start with every sink opening: the status is 0 and
the bitmap of the desired Snapshot is persisted. -/
theorem start_closing_part_witness :
    ((start all_ok false fresh_state).rv = 0 ∧ fresh_state.print_rules = false) ∧
    (start all_ok false fresh_state).st.persisted =
      snapshot_flags (start all_ok false fresh_state).st .cfg :=
  ⟨⟨rfl, rfl⟩, (start_closing_part all_ok false fresh_state).2.2.2.2.1 rfl rfl⟩

theorem lookup_two_zones :
    main good_env none (.network "lan") two_zone_state =
      ⟨0, two_zone_state, [Event.printf_zone "lan"]⟩ ∧
    main good_env none (.network "wlan") two_zone_state =
      ⟨0, two_zone_state, [Event.printf_zone "guest"]⟩ ∧
    main good_env none (.device "eth1") two_zone_state =
      ⟨0, two_zone_state, [Event.printf_zone "guest"]⟩ ∧
    main good_env none (.device "lan") two_zone_state = ⟨1, two_zone_state, []⟩ := by
  refine ⟨?_, ?_, ?_, ?_⟩ <;> decide

end Fw3
